import Mathlib

/-!
Verification of the scx_wd40 BPF scheduler core
(src/scheds/rust/scx_wd40/src/bpf/main.bpf.c) against its natural-language
specification.  The C code is shallowly embedded: CPU masks become
natural-number bitmasks, per-task and per-domain records become structures,
BPF map lookups become `Option`-valued environment functions, and side
effects on state that the model does not track (kicks, statistics bumps,
duty-cycle transfers) become explicit event lists in the return value.
Helpers that live in headers not present in the repository snapshot
(types.h, lb_domain.h, deadline.h, intf.h) are modelled from the
specification and are marked as such in their doc comments.
-/

namespace SCXWd40

/-- CPU masks are modelled as natural-number bitmasks: bit `c` set means CPU
`c` is a member.  This mirrors the `u64` array representation used by the C
code (`numa_cpumasks`, `tune_input` masks) without the fixed-width bound,
which none of the verified claims depend on. -/
abbrev Cpumask := Nat

/-- Embedding of `bpf_cpumask_test_cpu`. -/
def cpumask_test_cpu (cpu : Nat) (m : Cpumask) : Bool := m.testBit cpu

/-- Embedding of `bpf_cpumask_intersects`. -/
def cpumask_has_intersect (a b : Cpumask) : Bool := a &&& b != 0

/-- Embedding of `bpf_cpumask_and` (destination receives the intersection). -/
def cpumask_and (a b : Cpumask) : Cpumask := a &&& b

/-- Embedding of `bpf_cpumask_empty`. -/
def cpumask_empty (m : Cpumask) : Bool := m == 0

/-- Embedding of `bpf_cpumask_set_cpu`. -/
def cpumask_set_cpu (cpu : Nat) (m : Cpumask) : Cpumask := m ||| (1 <<< cpu)

/-- Embedding of `bpf_cpumask_clear_cpu`. -/
def cpumask_clear_cpu (cpu : Nat) (m : Cpumask) : Cpumask :=
  Nat.ldiff m (1 <<< cpu)

/-- Index of the lowest set bit of a positive number, computed with explicit
fuel so that it is structurally recursive (the fuel `m` always suffices,
since the answer is at most `Nat.log2 m < m` for `m > 0`). -/
def lowest_bit_fuel : Nat → Nat → Nat
  | 0, _ => 0
  | fuel + 1, m => if m % 2 = 1 then 0 else lowest_bit_fuel fuel (m / 2) + 1

/-- Index of the lowest set bit of a positive number (0 for 0). -/
def lowest_set_bit (m : Nat) : Nat := lowest_bit_fuel m m

/-- Embedding of `bpf_cpumask_any_distribute`: the kernel helper returns some
CPU of the mask, or a value `>= nr_cpu_ids` when the mask is empty.  The model
resolves the nondeterminism to the lowest set bit; an empty mask yields
`nr_cpu_ids` itself. -/
def cpumask_any_distribute (m : Cpumask) (nr_cpu_ids : Nat) : Nat :=
  if m = 0 then nr_cpu_ids else lowest_set_bit m

/-- Embedding of `bpf_cpumask_any_and_distribute`: some CPU of the
intersection of the two masks, or `>= nr_cpu_ids` if it is empty. -/
def cpumask_any_and_distribute (a b : Cpumask) (nr_cpu_ids : Nat) : Nat :=
  cpumask_any_distribute (cpumask_and a b) nr_cpu_ids

/-- Statistics counters bumped through `stat_add` (RUSTY_STAT_*). -/
inductive RustyStat
  | direct_dispatch
  | pinned
  | wake_sync
  | sync_prev_idle
  | prev_idle
  | greedy_idle
  | direct_greedy
  | direct_greedy_far
  | load_balance
  | repatriate
  | kick_greedy
  | dsq_dispatch
  | greedy_local
  | greedy_xnuma
  | task_get_err
deriving DecidableEq, Repr

/-- Observable side effects of a scheduler callback that act on state outside
the model (statistics, CPU kicks, duty-cycle transfer, DSQ insertion,
diagnostic errors).  The embedding returns them as an event trace. -/
inductive Ev
  | stat (k : RustyStat) (n : Nat)
  | kick (cpu : Nat)
  | kickIdle (cpu : Nat)
  | xferTask (dom : Nat) (now : Nat)
  | ravgAccum (now : Nat) (runnable : Bool)
  | domDcycleAdj (dom : Option Nat) (weight : Nat) (now : Nat) (runnable : Bool)
  | bpfError
deriving DecidableEq, Repr

/-- Modelled from the spec: `MAX_DOMS` from the missing intf.h header, the
fixed upper bound on domain ids ("domain count ... small", init-time static
input).  The concrete value matters to no claim; 64 matches a `u64` domain
bitmask (`node_dom_mask`, `taskc->dom_mask`). -/
def MAX_DOMS : Nat := 64

/-- Modelled from the spec: `MAX_CPUS` from the missing intf.h header, the
static bound on CPU ids (`pcpu_ctx` array size, checked by
`task_pick_domain`).  No claim depends on its concrete value. -/
def MAX_CPUS : Nat := 512

/-- Modelled from the spec: the "no domain" sentinel `NO_DOM_FOUND` from the
missing intf.h header (domain selection "returns ... else no domain found";
migration treats it as the teardown sentinel).  It only needs to lie outside
the valid domain-id range. -/
def NO_DOM_FOUND : Nat := MAX_DOMS + 1

/-- Modelled from the spec: the per-domain record of the missing lb_domain.h
header (Domain Registry state: "domain CPU mask, ... greedy-CPU submasks,
node-local CPU submask").  The kptr masks can be NULL in C, hence `Option`. -/
structure LbDomain where
  cpumask : Option Cpumask
  direct_greedy_cpumask : Option Cpumask
  node_cpumask : Option Cpumask
deriving DecidableEq, Repr

/-- Modelled from the spec: the arena-resident per-domain context of the
missing types.h header, as used by main.bpf.c: numeric id, the minimum
virtual-runtime baseline read through `dom_min_vruntime`, and the
recently-active-tasks ring (`active_tasks.gen`, `.write_idx`, `.tasks`). -/
structure DomCtx where
  id : Nat
  min_vruntime : Nat
  active_gen : Nat
  active_write_idx : Nat
  active_tasks : Nat → Option Nat

/-- Read-only lookup environment for domains: `lb_domain_get`,
`lookup_dom_ctx` / `try_lookup_dom_ctx` (both model the same id-indexed
lookup; they differ only in error reporting), and `dom_node_id`. -/
structure DomEnv where
  lb_domain_get : Nat → Option LbDomain
  dom_ctx : Nat → Option DomCtx
  dom_node_id : Nat → Nat

/-- Fields of `struct task_struct` read or written by the embedded code. -/
structure TaskP where
  pid : Nat
  cpus_ptr : Cpumask
  nr_cpus_allowed : Nat
  flags_kthread : Bool
  flags_wq_worker : Bool
  scx_queued : Bool
  dsq_vtime : Nat
deriving DecidableEq, Repr

/-- Fields of `struct task_ctx` (arena task context, missing types.h; the
field set is taken from the uses in main.bpf.c).  `domc` is the cached domain
pointer, modelled by the id of the domain it points at (`none` = NULL). -/
structure TaskCtx where
  target_dom : Nat
  domc : Option Nat
  t_cpumask : Cpumask
  dispatch_local : Bool
  all_cpus : Bool
  weight : Nat
  runnable : Bool
  is_kworker : Bool
  dom_mask : Nat
  preferred_dom_mask : Nat
  dom_active_tasks_gen : Int
  sum_runtime : Nat
  last_run_at : Nat
  waker_freq : Nat
  last_woke_at : Nat
  blocked_freq : Nat
  last_blocked_at : Nat
deriving DecidableEq, Repr

/-- Modelled from the spec: `init_vtime` from the missing deadline.h header.
The fairness engine floors the vtime of an (re)activated or migrated task at
the current minimum of its domain ("the vtime is floored at the domain
current minimum ... this also applies when a task moves into a new domain"). -/
def init_vtime (dmin : Nat) (p : TaskP) : TaskP :=
  { p with dsq_vtime := max p.dsq_vtime dmin }

/-- Embedding of `task_set_domain` (main.bpf.c:301-363).  Inputs are the
domain environment, the task, its context and working cpumask (already looked
up by `lookup_task_ctx_mask`), the requested domain id and the
`init_dsq_vtime` flag; output is the updated task, context, event trace and
the boolean result.  Lookup failures return the state unchanged with `false`,
mirroring the error-return paths. -/
def task_set_domain (env : DomEnv) (p : TaskP) (taskc : TaskCtx)
    (new_dom_id : Nat) (init_dsq_vtime : Bool) (now : Nat) :
    TaskP × TaskCtx × List Ev × Bool :=
  let old_dom_id := taskc.target_dom
  match env.dom_ctx old_dom_id with
  | none => (p, taskc, [], false)
  | some _old_domc =>
    if new_dom_id = NO_DOM_FOUND then
      (p, { taskc with t_cpumask := 0 }, [], !p.scx_queued)
    else
      match env.dom_ctx new_dom_id with
      | none => (p, taskc, [], false)
      | some new_domc =>
        match env.lb_domain_get new_dom_id with
        | none => (p, taskc, [Ev.bpfError], false)
        | some new_lb_domain =>
          match new_lb_domain.cpumask with
          | none => (p, taskc, [Ev.bpfError], false)
          | some d_cpumask =>
            if cpumask_has_intersect d_cpumask p.cpus_ptr then
              let evs := if !init_dsq_vtime then [Ev.xferTask new_dom_id now] else []
              let taskc := { taskc with target_dom := new_dom_id,
                                        domc := some new_dom_id }
              let p := init_vtime new_domc.min_vruntime
                         { p with dsq_vtime := new_domc.min_vruntime }
              let taskc := { taskc with
                               t_cpumask := cpumask_and d_cpumask p.cpus_ptr }
              (p, taskc, evs, taskc.target_dom == new_dom_id)
            else
              (p, taskc, [], taskc.target_dom == new_dom_id)

/-- Static topology input fixed at initialization: the `cpu_dom_id_map`
const-volatile array (`none` models an out-of-range index, for which
`MEMBER_VPTR` yields NULL) and the global counts. -/
structure TopoEnv where
  cpu_dom_id_map : Nat → Option Nat
  nr_cpu_ids : Nat
  nr_doms : Nat
  nr_nodes : Nat

/-- Embedding of `cpu_to_dom_id` (main.bpf.c:243-252). -/
def cpu_to_dom_id (topo : TopoEnv) (cpu : Nat) : Nat :=
  match topo.cpu_dom_id_map cpu with
  | none => MAX_DOMS
  | some dom_id => dom_id

/-- Embedding of `is_offline_cpu` (main.bpf.c:254-257). -/
def is_offline_cpu (topo : TopoEnv) (cpu : Nat) : Bool :=
  cpu_to_dom_id topo cpu > MAX_DOMS

/-- Embedding of `struct tune_input` (main.bpf.c:231-236): the snapshot the
userspace tuner writes, with its generation stamp. -/
structure TuneInput where
  gen : Nat
  slice_ns : Nat
  direct_greedy_cpumask : Cpumask
  kick_greedy_cpumask : Cpumask
deriving DecidableEq, Repr

/-- Derived tuning state refreshed by `refresh_tune_params`: the cached
generation `tune_params_gen`, the live `slice_ns`, the global
`direct_greedy_cpumask` and `kick_greedy_cpumask` kptr masks (`none` = NULL)
and the per-domain `lb_domain->direct_greedy_cpumask` masks. -/
structure TuneState where
  tune_params_gen : Nat
  slice_ns : Nat
  direct_greedy_cpumask : Option Cpumask
  kick_greedy_cpumask : Option Cpumask
  dom_direct_greedy : Nat → Option Cpumask

/-- Loop body of `refresh_tune_params` for one CPU: offline CPUs are skipped,
a failed `lb_domain_get` aborts the whole refresh (`none` result), otherwise
the direct-greedy bit of this CPU is copied into the global and per-domain
masks and the kick-greedy bit into the global kick mask (a NULL mask, that is
`none`, is left alone exactly as the C null checks do). -/
def refresh_tune_cpu (topo : TopoEnv) (denv : DomEnv) (input : TuneInput)
    (cpu : Nat) (st : TuneState) : Option TuneState :=
  let dom_id := cpu_to_dom_id topo cpu
  if is_offline_cpu topo cpu then
    some st
  else
    match denv.lb_domain_get dom_id with
    | none => none
    | some _lb_domain =>
      let st :=
        if input.direct_greedy_cpumask.testBit cpu then
          { st with
              direct_greedy_cpumask :=
                st.direct_greedy_cpumask.map (cpumask_set_cpu cpu),
              dom_direct_greedy := fun d =>
                if d = dom_id then (st.dom_direct_greedy d).map (cpumask_set_cpu cpu)
                else st.dom_direct_greedy d }
        else
          { st with
              direct_greedy_cpumask :=
                st.direct_greedy_cpumask.map (cpumask_clear_cpu cpu),
              dom_direct_greedy := fun d =>
                if d = dom_id then (st.dom_direct_greedy d).map (cpumask_clear_cpu cpu)
                else st.dom_direct_greedy d }
      let st :=
        if input.kick_greedy_cpumask.testBit cpu then
          { st with kick_greedy_cpumask :=
              st.kick_greedy_cpumask.map (cpumask_set_cpu cpu) }
        else
          { st with kick_greedy_cpumask :=
              st.kick_greedy_cpumask.map (cpumask_clear_cpu cpu) }
      some st

/-- The `bpf_for(cpu, 0, nr_cpu_ids)` loop of `refresh_tune_params`, with the
early `return` on a failed domain lookup cutting the iteration short while
keeping the updates already made. -/
def refresh_tune_cpus (topo : TopoEnv) (denv : DomEnv) (input : TuneInput) :
    List Nat → TuneState → TuneState
  | [], st => st
  | cpu :: rest, st =>
    match refresh_tune_cpu topo denv input cpu st with
    | none => st
    | some st2 => refresh_tune_cpus topo denv input rest st2

/-- Embedding of `refresh_tune_params` (main.bpf.c:259-299): a no-op when the
cached generation matches the live one, otherwise the cached generation and
slice are taken from the input and the greedy masks recomputed per CPU. -/
def refresh_tune_params (topo : TopoEnv) (denv : DomEnv) (input : TuneInput)
    (st : TuneState) : TuneState :=
  if st.tune_params_gen = input.gen then
    st
  else
    let st := { st with tune_params_gen := input.gen,
                        slice_ns := input.slice_ns }
    refresh_tune_cpus topo denv input (List.range topo.nr_cpu_ids) st

/-- Embedding of `task_load_adj` (main.bpf.c:219-224): records the runnable
state on the context and accumulates the duty-cycle running average, which
lives outside the model and is therefore emitted as an event. -/
def task_load_adj (now : Nat) (runnable : Bool) (taskc : TaskCtx) :
    TaskCtx × List Ev :=
  ({ taskc with runnable := runnable }, [Ev.ravgAccum now runnable])

/-- Modelled from the spec: `update_freq` from the missing deadline.h header,
an exponentially decayed wake/block frequency estimate ("accumulated
duty-cycle/runtime statistics (exponentially decayed)").  Only the fact that
the update happens, not its formula, is used by any claim. -/
def update_freq (freq interval : Nat) : Nat :=
  freq / 2 + 1000000000 / (interval + 1) / 2

/-- Modelled from the spec: `running_update_vtime` from the missing deadline.h
header.  On run-start the vtime does not advance; the task vtime is floored
at the domain minimum (anti-starvation floor). -/
def running_update_vtime (domc : DomCtx) (p : TaskP) (taskc : TaskCtx) :
    TaskP × TaskCtx :=
  ({ p with dsq_vtime := max p.dsq_vtime domc.min_vruntime }, taskc)

/-- Modelled from the spec: `stopping_update_vtime` from the missing
deadline.h header.  On run-stop the task vtime advances by
elapsed × (weight_unit / weight) — inverse-weight stride — and the run is
accounted into `sum_runtime`. -/
def stopping_update_vtime (now : Nat) (p : TaskP) (taskc : TaskCtx) :
    TaskP × TaskCtx :=
  let elapsed := now - taskc.last_run_at
  ({ p with dsq_vtime := p.dsq_vtime + elapsed * 100 / taskc.weight },
   { taskc with sum_runtime := taskc.sum_runtime + elapsed })

/-- Embedding of `rusty_runnable` (main.bpf.c:877-903).  `waker` is the
context of the current task as found by `try_lookup_task_ctx` (`none` when
that lookup fails). -/
def rusty_runnable (fifo_sched : Bool) (now : Nat) (p : TaskP)
    (wakee_ctx : TaskCtx) (waker_ctx : Option TaskCtx) :
    TaskCtx × Option TaskCtx × List Ev :=
  let wakee_ctx := { wakee_ctx with is_kworker := p.flags_wq_worker }
  let (wakee_ctx, evs) := task_load_adj now true wakee_ctx
  let evs := evs ++
    [Ev.domDcycleAdj wakee_ctx.domc wakee_ctx.weight now true]
  if fifo_sched then
    (wakee_ctx, waker_ctx, evs)
  else
    let wakee_ctx := { wakee_ctx with sum_runtime := 0 }
    match waker_ctx with
    | none => (wakee_ctx, none, evs)
    | some wk =>
      let interval := now - wk.last_woke_at
      (wakee_ctx,
       some { wk with waker_freq := update_freq wk.waker_freq interval,
                      last_woke_at := now },
       evs)

/-- Embedding of `rusty_running` (main.bpf.c:905-949).  `cap` stands for the
`MAX_DOM_ACTIVE_TPTRS` ring capacity whose value lives in the missing types.h
header (the spec only fixes that it is a positive constant); `domc` is the
record `taskc->domc` points at (`none` models a NULL pointer). -/
def rusty_running (cap : Nat) (fifo_sched : Bool) (now : Nat) (p : TaskP)
    (taskc : TaskCtx) (domc : Option DomCtx) :
    TaskP × TaskCtx × Option DomCtx × List Ev :=
  match domc with
  | none => (p, taskc, none, [Ev.bpfError])
  | some domc =>
    let dap_gen := domc.active_gen
    let step2 := fun (p : TaskP) (taskc : TaskCtx) (domc : DomCtx)
        (evs : List Ev) =>
      if fifo_sched then
        (p, taskc, some domc, evs)
      else
        let (p, taskc) := running_update_vtime domc p taskc
        (p, { taskc with last_run_at := now }, some domc, evs)
    if taskc.dom_active_tasks_gen ≠ (dap_gen : Int) then
      let idx := domc.active_write_idx % cap
      let domc := { domc with active_write_idx := domc.active_write_idx + 1 }
      if idx ≥ cap then
        (p, taskc, some domc, [Ev.bpfError])
      else
        let tasks2 : Nat → Option Nat :=
          fun j => if j = idx then some p.pid else domc.active_tasks j
        let domc := { domc with active_tasks := tasks2 }
        let taskc := { taskc with dom_active_tasks_gen := (dap_gen : Int) }
        step2 p taskc domc []
    else
      step2 p taskc domc []

/-- Embedding of `rusty_stopping` (main.bpf.c:951-966). -/
def rusty_stopping (fifo_sched : Bool) (now : Nat) (p : TaskP)
    (taskc : TaskCtx) (_runnable : Bool) : TaskP × TaskCtx :=
  if fifo_sched then
    (p, taskc)
  else
    match taskc.domc with
    | none => (p, taskc)
    | some _domc => stopping_update_vtime now p taskc

/-- Embedding of `rusty_quiescent` (main.bpf.c:968-989). -/
def rusty_quiescent (fifo_sched : Bool) (now : Nat) (_p : TaskP)
    (taskc : TaskCtx) : TaskCtx × List Ev :=
  match taskc.domc with
  | none => (taskc, [])
  | some domc =>
    let (taskc, evs) := task_load_adj now false taskc
    let evs := evs ++ [Ev.domDcycleAdj (some domc) taskc.weight now false]
    if fifo_sched then
      (taskc, evs)
    else
      let interval := now - taskc.last_blocked_at
      ({ taskc with blocked_freq := update_freq taskc.blocked_freq interval,
                    last_blocked_at := now },
       evs)

/-- Where `rusty_enqueue` inserts the task: the local DSQ of the chosen CPU
(`scx_bpf_dsq_insert(p, SCX_DSQ_LOCAL, ...)`), a domain DSQ in FIFO order
(`scx_bpf_dsq_insert(p, taskc->target_dom, ...)`), a domain DSQ ordered by
the deadline engine (`place_task_dl`, modelled from the spec: insertion
position computed from vtime — "Enqueue ordering within a domain queue is by
ascending vtime"), or no insertion at all (early error return). -/
inductive InsertAct
  | localInsert (slice : Nat)
  | dsqInsert (dsq : Nat) (slice : Nat)
  | deadlineInsert (dsq : Nat)
  | noInsert
deriving DecidableEq, Repr

/-- Environment of one `rusty_enqueue` invocation: the domain registry, the
relevant const-volatile and global tuning values, the idle-mask snapshot and
the CPU the task currently sits on (`scx_bpf_task_cpu`). -/
structure EnqEnv where
  denv : DomEnv
  slice_ns : Nat
  fifo_sched : Bool
  nr_cpu_ids : Nat
  kick_greedy_cpumask : Option Cpumask
  idle_cpumask : Cpumask
  task_cpu : Nat
  now : Nat

/-- The `dom_queue` tail of `rusty_enqueue` (main.bpf.c:697-733): the FIFO or
deadline insertion into the domain DSQ followed by the kick-greedy probe.
`cpu` is the running `s32 cpu` variable, which earlier parts of the function
may have left at a non-negative value. -/
def rusty_enqueue_kick_greedy (env : EnqEnv) (all_cpus : Bool) (cpu : Int) :
    List Ev :=
  if all_cpus then
    let cpu : Int :=
      match env.kick_greedy_cpumask with
      | some kg =>
        let c := cpumask_any_and_distribute kg env.idle_cpumask env.nr_cpu_ids
        if c ≥ env.nr_cpu_ids then -16 else (c : Int)
      | none => cpu
    if cpu ≥ 0 then
      [Ev.stat RustyStat.kick_greedy 1, Ev.kickIdle cpu.toNat]
    else
      []
  else
    []

def rusty_enqueue_dom_queue (env : EnqEnv) (p : TaskP) (taskc : TaskCtx)
    (evs : List Ev) (cpu : Int) : TaskP × TaskCtx × List Ev × InsertAct :=
  let act := if env.fifo_sched then
      InsertAct.dsqInsert taskc.target_dom env.slice_ns
    else
      InsertAct.deadlineInsert taskc.target_dom
  (p, taskc, evs ++ rusty_enqueue_kick_greedy env taskc.all_cpus cpu, act)

/-- The part of `rusty_enqueue` after the migration branch (main.bpf.c:
676-695): local direct dispatch when flagged, else the repatriation kick when
the task sits on a CPU outside its working mask, falling through to
`dom_queue`. -/
def rusty_enqueue_post_migration (env : EnqEnv) (p : TaskP) (taskc : TaskCtx)
    (evs : List Ev) (cpu : Int) : TaskP × TaskCtx × List Ev × InsertAct :=
  if taskc.dispatch_local then
    (p, { taskc with dispatch_local := false }, evs,
     InsertAct.localInsert env.slice_ns)
  else
    if !cpumask_test_cpu env.task_cpu taskc.t_cpumask then
      let c := cpumask_any_distribute taskc.t_cpumask env.nr_cpu_ids
      let kicks := if c < env.nr_cpu_ids then [Ev.kick c] else []
      rusty_enqueue_dom_queue env p taskc
        (evs ++ kicks ++ [Ev.stat RustyStat.repatriate 1]) (c : Int)
    else
      rusty_enqueue_dom_queue env p taskc evs cpu

/-- Embedding of `rusty_enqueue` (main.bpf.c:649-734).  The balancer requests
a migration by pointing `taskc->domc` at a new domain; the function then
calls `task_set_domain` with that domain id and, on success, counts a load
balance, clears the local-dispatch flag, kicks a CPU of the refreshed working
mask and goes to `dom_queue`. -/
def rusty_enqueue (env : EnqEnv) (p : TaskP) (taskc : TaskCtx) :
    TaskP × TaskCtx × List Ev × InsertAct :=
  match taskc.domc with
  | none => (p, taskc, [], InsertAct.noInsert)
  | some dom_id =>
    if dom_id ≠ taskc.target_dom then
      match task_set_domain env.denv p taskc dom_id false env.now with
      | (p2, taskc2, evs, true) =>
        let taskc3 := { taskc2 with dispatch_local := false }
        let c := cpumask_any_distribute taskc3.t_cpumask env.nr_cpu_ids
        let kicks := if c < env.nr_cpu_ids then [Ev.kick c] else []
        rusty_enqueue_dom_queue env p2 taskc3
          (evs ++ [Ev.stat RustyStat.load_balance 1] ++ kicks) (c : Int)
      | (p2, taskc2, evs, false) =>
        rusty_enqueue_post_migration env p2 taskc2 evs (-1)
    else
      rusty_enqueue_post_migration env p taskc [] (-1)

/-- Environment of one `rusty_dispatch` invocation: topology, per-domain node
ids, the two greedy thresholds, and oracles for the DSQ state —
`scx_bpf_dsq_move_to_local` success and `scx_bpf_dsq_nr_queued` occupancy per
DSQ id. -/
structure DispEnv where
  topo : TopoEnv
  dom_node_id : Nat → Nat
  greedy_threshold : Nat
  greedy_threshold_x_numa : Nat
  dsq_move : Nat → Bool
  nr_queued : Nat → Nat

/-- Result of `rusty_dispatch` in the model: the updated round-robin cursor
of the per-CPU context, the emitted statistics events, and the lists of
domains actually probed (a probe is a `scx_bpf_dsq_move_to_local` call on a
foreign domain DSQ) by the same-node and the cross-node steal loops. -/
structure DispatchRes where
  dom_rr_cur : Nat
  evs : List Ev
  local_tried : Bool
  same_node_probes : List Nat
  xnuma_probes : List Nat
deriving DecidableEq, Repr

/-- The same-node steal loop of `rusty_dispatch` (main.bpf.c:848-857):
`bpf_repeat(nr_doms - 1)` iterations over the round-robin cursor, skipping
the current domain and domains on other nodes, stealing from the first
successful move.  Returns the new cursor, the probed domains and the stolen
domain if any. -/
def dispatch_steal_same_node (env : DispEnv) (curr_dom my_node : Nat) :
    Nat → Nat → List Nat → Nat × List Nat × Option Nat
  | 0, rr, probes => (rr, probes, none)
  | fuel + 1, rr, probes =>
    let dom := rr % env.topo.nr_doms
    let rr := rr + 1
    if dom = curr_dom ∨ env.dom_node_id dom ≠ my_node then
      dispatch_steal_same_node env curr_dom my_node fuel rr probes
    else if env.dsq_move dom then
      (rr, probes ++ [dom], some dom)
    else
      dispatch_steal_same_node env curr_dom my_node fuel rr (probes ++ [dom])

/-- The cross-node steal loop of `rusty_dispatch` (main.bpf.c:863-874):
skips same-node domains, the current domain, and every domain whose queue
occupancy is at or above `greedy_threshold_x_numa`. -/
def dispatch_steal_xnuma (env : DispEnv) (curr_dom my_node : Nat) :
    Nat → Nat → List Nat → Nat × List Nat × Option Nat
  | 0, rr, probes => (rr, probes, none)
  | fuel + 1, rr, probes =>
    let dom := rr % env.topo.nr_doms
    let rr := rr + 1
    if env.dom_node_id dom = my_node ∨ dom = curr_dom ∨
        env.nr_queued dom ≥ env.greedy_threshold_x_numa then
      dispatch_steal_xnuma env curr_dom my_node fuel rr probes
    else if env.dsq_move dom then
      (rr, probes ++ [dom], some dom)
    else
      dispatch_steal_xnuma env curr_dom my_node fuel rr (probes ++ [dom])

/-- Embedding of `rusty_dispatch` (main.bpf.c:817-875).  `rr0` is the
`dom_rr_cur` field of the per-CPU context (`none` models a failed
`lookup_pcpu_ctx`). -/
def rusty_dispatch (env : DispEnv) (cpu : Nat) (rr0 : Option Nat) :
    DispatchRes :=
  let curr_dom := cpu_to_dom_id env.topo cpu
  let rrv := match rr0 with | none => 0 | some r => r
  if is_offline_cpu env.topo cpu then
    ⟨rrv, [], false, [], []⟩
  else if env.dsq_move curr_dom then
    ⟨rrv, [Ev.stat RustyStat.dsq_dispatch 1], true, [], []⟩
  else if env.greedy_threshold = 0 then
    ⟨rrv, [], true, [], []⟩
  else
    match rr0 with
    | none => ⟨rrv, [], true, [], []⟩
    | some rr =>
      let my_node := env.dom_node_id curr_dom
      match dispatch_steal_same_node env curr_dom my_node
          (env.topo.nr_doms - 1) rr [] with
      | (rr1, probes1, some _) =>
        ⟨rr1, [Ev.stat RustyStat.greedy_local 1], true, probes1, []⟩
      | (rr1, probes1, none) =>
        if env.greedy_threshold_x_numa = 0 ∨ env.topo.nr_nodes = 1 then
          ⟨rr1, [], true, probes1, []⟩
        else
          match dispatch_steal_xnuma env curr_dom my_node
              (env.topo.nr_doms - 1) rr1 [] with
          | (rr2, probes2, some _) =>
            ⟨rr2, [Ev.stat RustyStat.greedy_xnuma 1], true, probes1, probes2⟩
          | (rr2, probes2, none) =>
            ⟨rr2, [], true, probes1, probes2⟩

/-- Embedding of `cpumask_intersects_domain` (main.bpf.c:736-750): a failed
domain lookup or NULL mask kptr counts as no intersection. -/
def cpumask_intersects_domain (denv : DomEnv) (cpumask : Cpumask)
    (dom_id : Nat) : Bool :=
  match denv.lb_domain_get dom_id with
  | none => false
  | some lb =>
    match lb.cpumask with
    | none => false
    | some dmask => cpumask_has_intersect cpumask dmask

/-- Embedding of `node_dom_mask` (main.bpf.c:755-768): the bitmask of domain
ids on a node, by linear scan over all domains. -/
def node_dom_mask (denv : DomEnv) (nr_doms : Nat) (node_id : Nat) : Nat :=
  (List.range nr_doms).foldl
    (fun mask dom_id =>
      if denv.dom_node_id dom_id ≠ node_id then mask
      else mask ||| (1 <<< dom_id)) 0

/-- Fields of `struct mempolicy` read by the embedded code: whether the mode
has one of MPOL_BIND / MPOL_PREFERRED / MPOL_PREFERRED_MANY set, the home
node, and the first word of the node set (`none` models a failed
`bpf_core_read`). -/
structure MemPolicy where
  mode_has_preferred : Bool
  home_node : Int
  nodes_bits : Option Nat
deriving DecidableEq, Repr

/-- Embedding of `task_set_preferred_mempolicy_dom_mask` (main.bpf.c:
774-815).  `mp` is the nullable `p->mempolicy`, `mempolicy_affinity` the
const-volatile flag, `has_mempolicy_field` the `bpf_core_field_exists`
compile-time probe, and `mask_ok` whether `lookup_task_bpfmask` succeeded. -/
def task_set_preferred_mempolicy_dom_mask (denv : DomEnv)
    (nr_doms nr_nodes : Nat)
    (mempolicy_affinity has_mempolicy_field mask_ok : Bool)
    (mp : Option MemPolicy) (taskc : TaskCtx) : TaskCtx :=
  let taskc := { taskc with preferred_dom_mask := 0 }
  if !mempolicy_affinity ∨ !has_mempolicy_field ∨ !mask_ok then taskc
  else
    match mp with
    | none => taskc
    | some mp =>
      if !mp.mode_has_preferred then taskc
      else if mp.home_node ≥ 0 then
        { taskc with preferred_dom_mask :=
            node_dom_mask denv nr_doms mp.home_node.toNat }
      else
        match mp.nodes_bits with
        | none => taskc
        | some val =>
          let pm := (List.range nr_nodes).foldl
            (fun acc node_id =>
              if !val.testBit node_id then acc
              else acc ||| node_dom_mask denv nr_doms node_id) 0
          { taskc with preferred_dom_mask := pm }

/-- The `bpf_repeat(nr_doms)` scan of `task_pick_domain` (main.bpf.c:
1018-1037), with explicit fuel.  Carries the loop variable `dom` and the
accumulated membership mask, first matching domain and first matching
preferred domain. -/
def task_pick_domain_loop (denv : DomEnv) (nr_doms : Nat) (cpumask : Cpumask)
    (preferred_mask : Nat) :
    Nat → Nat → Nat → Nat → Nat → Nat × Nat × Nat
  | 0, _dom, dm, fd, pd => (dm, fd, pd)
  | fuel + 1, dom, dm, fd, pd =>
    let dom := (dom + 1) % nr_doms
    if cpumask_intersects_domain denv cpumask dom then
      let dm := dm ||| (1 <<< dom)
      let fd := if fd = NO_DOM_FOUND then dom else fd
      if preferred_mask = 0 then
        task_pick_domain_loop denv nr_doms cpumask preferred_mask fuel dom dm fd pd
      else
        let pd := if (1 <<< dom) &&& preferred_mask ≠ 0 ∧ pd = NO_DOM_FOUND
          then dom else pd
        task_pick_domain_loop denv nr_doms cpumask preferred_mask fuel dom dm fd pd
    else
      task_pick_domain_loop denv nr_doms cpumask preferred_mask fuel dom dm fd pd

/-- Embedding of `task_pick_domain` (main.bpf.c:1005-1040).  `cpu` is
`bpf_get_smp_processor_id()` and `rr_cur` the `dom_rr_cur` cell of that CPU
(post-incremented); returns the updated context, the advanced cursor and the
chosen domain id. -/
def task_pick_domain (denv : DomEnv) (topo : TopoEnv)
    (mempolicy_affinity has_mempolicy_field mask_ok : Bool)
    (mp : Option MemPolicy) (cpu rr_cur : Nat) (taskc : TaskCtx)
    (cpumask : Cpumask) : TaskCtx × Nat × Nat :=
  if cpu ≥ MAX_CPUS then
    (taskc, rr_cur, NO_DOM_FOUND)
  else
    let taskc := { taskc with dom_mask := 0 }
    let dom := rr_cur
    let rr_cur := rr_cur + 1
    let taskc := task_set_preferred_mempolicy_dom_mask denv topo.nr_doms
      topo.nr_nodes mempolicy_affinity has_mempolicy_field mask_ok mp taskc
    let res := task_pick_domain_loop denv topo.nr_doms cpumask
      taskc.preferred_dom_mask topo.nr_doms dom 0 NO_DOM_FOUND NO_DOM_FOUND
    ({ taskc with dom_mask := res.1 }, rr_cur,
     if res.2.2 ≠ NO_DOM_FOUND then res.2.2 else res.2.1)

/-- Environment of one `rusty_select_cpu` invocation: registry and topology,
the tuning state and live tuning input (the function refreshes them first),
the const-volatile flags, snapshots of the idle masks, and oracles for the
stateful kernel idle-CPU helpers — `scx_bpf_test_and_clear_cpu_idle`,
`scx_bpf_pick_idle_cpu` with and without `SCX_PICK_IDLE_CORE`,
`scx_bpf_dsq_nr_queued(SCX_DSQ_LOCAL_ON | cpu)` — plus the waking CPU id,
its per-CPU resident domain, the PF_EXITING flag of the current task and
whether the per-CPU scratch mask singleton is initialized. -/
structure SelEnv where
  denv : DomEnv
  topo : TopoEnv
  tune : TuneState
  tune_input : TuneInput
  kthreads_local : Bool
  direct_greedy_numa : Bool
  idle_smtmask : Cpumask
  idle_cpumask : Cpumask
  test_and_clear_idle : Nat → Bool
  pick_idle_core : Cpumask → Option Nat
  pick_idle_cpu : Cpumask → Option Nat
  local_dsq_nr_queued : Nat → Nat
  current_exiting : Bool
  smp_cpu : Nat
  pcpu_dom_id : Nat → Option Nat
  percpu_scratch_ok : Bool

/-- Embedding of `try_sync_wakeup` (main.bpf.c:366-417): keep a sync wakeup
on the waker domain if the previous CPU shares it and is idle, else on the
waker CPU itself when the domain has idle CPUs, the waker is not exiting and
its local DSQ is empty. -/
def try_sync_wakeup (env : SelEnv) (p : TaskP) (taskc : TaskCtx)
    (prev_cpu : Nat) : Int × List Ev :=
  let cpu := env.smp_cpu
  match env.pcpu_dom_id cpu with
  | none => (-2, [])
  | some dom_id =>
    match env.denv.lb_domain_get dom_id with
    | none => (-2, [])
    | some lb =>
      match lb.cpumask with
      | none => (-2, [Ev.bpfError])
      | some d_cpumask =>
        if cpumask_test_cpu prev_cpu d_cpumask
            ∧ env.test_and_clear_idle prev_cpu then
          ((prev_cpu : Int), [Ev.stat RustyStat.sync_prev_idle 1])
        else if cpumask_has_intersect d_cpumask env.idle_cpumask
            ∧ cpumask_test_cpu cpu p.cpus_ptr
            ∧ ¬env.current_exiting
            ∧ taskc.target_dom < MAX_DOMS
            ∧ env.local_dsq_nr_queued cpu = 0 then
          ((cpu : Int), [Ev.stat RustyStat.wake_sync 1])
        else
          (-2, [])

/-- Outcome of the direct-greedy section of `rusty_select_cpu`: a direct
dispatch hit, a fall-through to the fallback, or a `goto enoent`. -/
inductive SelStep
  | hit (cpu : Nat) (evs : List Ev)
  | miss (evs : List Ev)
  | fail (evs : List Ev)
deriving DecidableEq, Repr

/-- Embedding of the direct-greedy section of `rusty_select_cpu`
(main.bpf.c:523-620): when the domestic domain is fully booked and the task
may use all CPUs, search the direct-greedy masks for an idle core first and
an idle CPU second, the previous domain first and the wider mask second, the
wider mask being restricted to the NUMA node of the previous CPU unless
`direct_greedy_numa` is set.  A NULL arena `domc` (offline previous CPU)
reads as domain id 0 and skips the domain-local tiers. -/
def select_cpu_greedy (env : SelEnv) (tuneR : TuneState) (taskc : TaskCtx)
    (prev_cpu : Nat) (has_idle_cores : Bool) : SelStep :=
  match tuneR.direct_greedy_cpumask with
  | none => SelStep.miss []
  | some dg =>
    if taskc.all_cpus ∧ ¬cpumask_empty dg then
      let dom_id := cpu_to_dom_id env.topo prev_cpu
      let domc? : Option (Option DomCtx) :=
        if is_offline_cpu env.topo prev_cpu then some none
        else match env.denv.dom_ctx dom_id with
          | none => none
          | some dc => some (some dc)
      match domc? with
      | none => SelStep.fail [Ev.bpfError]
      | some domc =>
        let domc_id := match domc with
          | none => 0
          | some dc => dc.id
        match env.denv.lb_domain_get domc_id with
        | none => SelStep.fail [Ev.bpfError]
        | some lb =>
          let tmp? : Option Cpumask :=
            if ¬env.direct_greedy_numa ∧ domc.isSome then
              match lb.node_cpumask with
              | none => none
              | some node_mask =>
                if env.percpu_scratch_ok then some (cpumask_and node_mask dg)
                else none
            else some dg
          match tmp? with
          | none => SelStep.fail [Ev.bpfError]
          | some tmp_direct_greedy =>
            let dgd? : Option Cpumask :=
              match domc with
              | none => none
              | some _ => tuneR.dom_direct_greedy domc_id
            let t1 : Option (Nat × RustyStat) :=
              if has_idle_cores then
                match dgd? with
                | some dgd =>
                  match env.pick_idle_core dgd with
                  | some cpu => some (cpu, RustyStat.direct_greedy)
                  | none => none
                | none => none
              else none
            let t2 : Option (Nat × RustyStat) :=
              if has_idle_cores then
                match env.pick_idle_core tmp_direct_greedy with
                | some cpu => some (cpu, RustyStat.direct_greedy_far)
                | none => none
              else none
            let t3 : Option (Nat × RustyStat) :=
              match dgd? with
              | some dgd =>
                match env.pick_idle_cpu dgd with
                | some cpu => some (cpu, RustyStat.direct_greedy)
                | none => none
              | none => none
            let t4 : Option (Nat × RustyStat) :=
              match env.pick_idle_cpu tmp_direct_greedy with
              | some cpu => some (cpu, RustyStat.direct_greedy_far)
              | none => none
            match t1.orElse (fun _ => t2.orElse (fun _ =>
                t3.orElse (fun _ => t4))) with
            | some (cpu, st) => SelStep.hit cpu [Ev.stat st 1]
            | none => SelStep.miss []
    else
      SelStep.miss []

/-- Embedding of `rusty_select_cpu` (main.bpf.c:419-647).  The result is the
chosen CPU (or `-ENOENT`), the updated task context (a direct hit sets
`dispatch_local`), the refreshed tuning state and the emitted events. -/
def rusty_select_cpu (env : SelEnv) (p : TaskP) (taskc : TaskCtx)
    (prev_cpu : Nat) (wake_sync : Bool) : Int × TaskCtx × TuneState × List Ev :=
  let tuneR := refresh_tune_params env.topo env.denv env.tune_input env.tune
  let direct := fun (cpu : Int) (evs : List Ev) =>
    (cpu, { taskc with dispatch_local := true }, tuneR, evs)
  if p.nr_cpus_allowed = 1 then
    if env.kthreads_local ∧ p.flags_kthread then
      direct (prev_cpu : Int) [Ev.stat RustyStat.direct_dispatch 1]
    else
      direct (prev_cpu : Int) [Ev.stat RustyStat.pinned 1]
  else
    let sync := if wake_sync then try_sync_wakeup env p taskc prev_cpu
      else (-1, [])
    if wake_sync ∧ sync.1 ≥ 0 then
      direct sync.1 sync.2
    else
      let evs0 := sync.2
      let has_idle_cores := !cpumask_empty env.idle_smtmask
      let prev_domestic := cpumask_test_cpu prev_cpu taskc.t_cpumask
      if prev_domestic ∧ cpumask_test_cpu prev_cpu env.idle_smtmask
          ∧ env.test_and_clear_idle prev_cpu then
        direct (prev_cpu : Int) (evs0 ++ [Ev.stat RustyStat.prev_idle 1])
      else if ¬prev_domestic
          ∧ (tuneR.direct_greedy_cpumask.elim false
              (fun dg => cpumask_test_cpu prev_cpu dg))
          ∧ cpumask_test_cpu prev_cpu env.idle_smtmask
          ∧ env.test_and_clear_idle prev_cpu then
        direct (prev_cpu : Int) (evs0 ++ [Ev.stat RustyStat.greedy_idle 1])
      else
        let core_pick := if has_idle_cores then
            env.pick_idle_core taskc.t_cpumask
          else none
        match core_pick with
        | some cpu => direct (cpu : Int)
            (evs0 ++ [Ev.stat RustyStat.direct_dispatch 1])
        | none =>
          if prev_domestic ∧ env.test_and_clear_idle prev_cpu then
            direct (prev_cpu : Int)
              (evs0 ++ [Ev.stat RustyStat.direct_dispatch 1])
          else
            match env.pick_idle_cpu taskc.t_cpumask with
            | some cpu => direct (cpu : Int)
                (evs0 ++ [Ev.stat RustyStat.direct_dispatch 1])
            | none =>
              match select_cpu_greedy env tuneR taskc prev_cpu has_idle_cores with
              | SelStep.hit cpu evs => direct (cpu : Int) (evs0 ++ evs)
              | SelStep.fail evs => (-2, taskc, tuneR, evs0 ++ evs)
              | SelStep.miss evs =>
                let cpu : Int :=
                  if prev_domestic then (prev_cpu : Int)
                  else
                    let c := cpumask_any_distribute taskc.t_cpumask
                      env.topo.nr_cpu_ids
                    if c ≥ env.topo.nr_cpu_ids then (prev_cpu : Int)
                    else (c : Int)
                (cpu, taskc, tuneR, evs0 ++ evs)

/-! Theorems.  Everything above this point is a definition; everything below
is a theorem about those definitions. -/

theorem testBit_one_iff (n : Nat) : Nat.testBit 1 n = (n == 0) := by
  cases n with
  | zero => rfl
  | succ k => simp [Nat.testBit_succ, Nat.zero_testBit]

theorem shifted_bit_testBit (c x : Nat) : (1 <<< c).testBit x = (x == c) := by
  simp only [Nat.testBit_shiftLeft, testBit_one_iff]
  by_cases h : x = c
  · subst h; simp
  · by_cases hle : c ≤ x
    · simp [hle, h]
      omega
    · simp [hle, h]

theorem cpumask_set_cpu_testBit (c x : Nat) (m : Cpumask) :
    (cpumask_set_cpu c m).testBit x = (m.testBit x || x == c) := by
  simp only [cpumask_set_cpu, Nat.testBit_lor, shifted_bit_testBit]

theorem cpumask_clear_cpu_testBit (c x : Nat) (m : Cpumask) :
    (cpumask_clear_cpu c m).testBit x = (m.testBit x && !(x == c)) := by
  simp only [cpumask_clear_cpu, Nat.testBit_ldiff, shifted_bit_testBit]

/-- C1: a call to `task_set_domain` with a real (looked-up) new domain id that
is not the `NO_DOM_FOUND` sentinel, differs from the current `target_dom`, and
whose domain CPU mask does not intersect the hard affinity `p.cpus_ptr`,
returns `false` and leaves the whole scheduling state — `target_dom`, the
cached `domc` pointer, the working cpumask and the vtime — unchanged, with no
side effects. -/
theorem task_set_domain_lost_race_noop
    (env : DomEnv) (p : TaskP) (taskc : TaskCtx) (new_dom_id : Nat)
    (init_dsq_vtime : Bool) (now : Nat)
    (odc : DomCtx) (hold : env.dom_ctx taskc.target_dom = some odc)
    (hsent : new_dom_id ≠ NO_DOM_FOUND)
    (hdiff : new_dom_id ≠ taskc.target_dom)
    (ndc : DomCtx) (hnew : env.dom_ctx new_dom_id = some ndc)
    (lbd : LbDomain) (hlb : env.lb_domain_get new_dom_id = some lbd)
    (dmask : Cpumask) (hmask : lbd.cpumask = some dmask)
    (hmiss : cpumask_has_intersect dmask p.cpus_ptr = false) :
    task_set_domain env p taskc new_dom_id init_dsq_vtime now
      = (p, taskc, [], false) := by
  simp [task_set_domain, hold, hsent, hnew, hlb, hmask, hmiss, Ne.symm hdiff]

/-- Concrete instantiation of C1: a two-domain registry, a task currently in
domain 0 with affinity `{0}`, asked to move to domain 1 whose CPU mask is
`{1}`. -/
theorem task_set_domain_lost_race_noop_witness :
    task_set_domain
      (DomEnv.mk
        (fun d => if d = 0 then some (LbDomain.mk (some 1) (some 0) (some 1))
                  else if d = 1 then some (LbDomain.mk (some 2) (some 0) (some 2))
                  else none)
        (fun d => if d = 0 then some (DomCtx.mk 0 0 0 0 (fun _ => none))
                  else if d = 1 then some (DomCtx.mk 1 0 0 0 (fun _ => none))
                  else none)
        (fun _ => 0))
      (TaskP.mk 7 1 1 false false false 42)
      (TaskCtx.mk 0 (some 0) 1 false false 100 true false 1 0 0 0 0 0 0 0 0)
      1 false 5
    = ((TaskP.mk 7 1 1 false false false 42),
       (TaskCtx.mk 0 (some 0) 1 false false 100 true false 1 0 0 0 0 0 0 0 0),
       [], false) :=
  task_set_domain_lost_race_noop _ _ _ _ _ _
    (DomCtx.mk 0 0 0 0 (fun _ => none)) rfl
    (by decide) (by decide)
    (DomCtx.mk 1 0 0 0 (fun _ => none)) rfl
    (LbDomain.mk (some 2) (some 0) (some 2)) rfl
    2 rfl (by decide)

/-- C10: a call to `task_set_domain` with a real new domain id equal to the
current `target_dom` (and not the sentinel) returns `true` even when the hard
affinity no longer intersects that domain CPU mask: the intersection check
guards only the state update, while the return value compares `target_dom`
with the requested id. -/
theorem task_set_domain_same_dom_true
    (env : DomEnv) (p : TaskP) (taskc : TaskCtx) (new_dom_id : Nat)
    (init_dsq_vtime : Bool) (now : Nat)
    (odc : DomCtx) (hold : env.dom_ctx taskc.target_dom = some odc)
    (hsent : new_dom_id ≠ NO_DOM_FOUND)
    (hsame : new_dom_id = taskc.target_dom)
    (ndc : DomCtx) (hnew : env.dom_ctx new_dom_id = some ndc)
    (lbd : LbDomain) (hlb : env.lb_domain_get new_dom_id = some lbd)
    (dmask : Cpumask) (hmask : lbd.cpumask = some dmask)
    (hmiss : cpumask_has_intersect dmask p.cpus_ptr = false) :
    task_set_domain env p taskc new_dom_id init_dsq_vtime now
      = (p, taskc, [], true) := by
  subst hsame
  simp [task_set_domain, hold, hsent, hnew, hlb, hmask, hmiss]

/-- Concrete instantiation of C10: the task is already assigned domain 1, its
affinity `{0}` no longer meets the domain 1 mask `{1}`, yet the call reports
success. -/
theorem task_set_domain_same_dom_true_witness :
    task_set_domain
      (DomEnv.mk
        (fun d => if d = 0 then some (LbDomain.mk (some 1) (some 0) (some 1))
                  else if d = 1 then some (LbDomain.mk (some 2) (some 0) (some 2))
                  else none)
        (fun d => if d = 0 then some (DomCtx.mk 0 0 0 0 (fun _ => none))
                  else if d = 1 then some (DomCtx.mk 1 0 0 0 (fun _ => none))
                  else none)
        (fun _ => 0))
      (TaskP.mk 7 1 1 false false false 42)
      (TaskCtx.mk 1 (some 1) 1 false false 100 true false 2 0 0 0 0 0 0 0 0)
      1 false 5
    = ((TaskP.mk 7 1 1 false false false 42),
       (TaskCtx.mk 1 (some 1) 1 false false 100 true false 2 0 0 0 0 0 0 0 0),
       [], true) :=
  task_set_domain_same_dom_true _ _ _ _ _ _
    (DomCtx.mk 1 0 0 0 (fun _ => none)) rfl
    (by decide) rfl
    (DomCtx.mk 1 0 0 0 (fun _ => none)) rfl
    (LbDomain.mk (some 2) (some 0) (some 2)) rfl
    2 rfl (by decide)

theorem refresh_tune_cpu_offline (topo : TopoEnv) (denv : DomEnv)
    (input : TuneInput) (cpu : Nat) (st : TuneState)
    (hon : is_offline_cpu topo cpu = true) :
    refresh_tune_cpu topo denv input cpu st = some st := by
  simp [refresh_tune_cpu, hon]

theorem refresh_tune_cpu_online (topo : TopoEnv) (denv : DomEnv)
    (input : TuneInput) (cpu : Nat) (st : TuneState) (lb : LbDomain)
    (hon : is_offline_cpu topo cpu = false)
    (hlb : denv.lb_domain_get (cpu_to_dom_id topo cpu) = some lb) :
    refresh_tune_cpu topo denv input cpu st = some
      { tune_params_gen := st.tune_params_gen
        slice_ns := st.slice_ns
        direct_greedy_cpumask := st.direct_greedy_cpumask.map (fun m =>
          if input.direct_greedy_cpumask.testBit cpu then cpumask_set_cpu cpu m
          else cpumask_clear_cpu cpu m)
        kick_greedy_cpumask := st.kick_greedy_cpumask.map (fun m =>
          if input.kick_greedy_cpumask.testBit cpu then cpumask_set_cpu cpu m
          else cpumask_clear_cpu cpu m)
        dom_direct_greedy := fun d =>
          if d = cpu_to_dom_id topo cpu then
            (st.dom_direct_greedy d).map (fun m =>
              if input.direct_greedy_cpumask.testBit cpu then cpumask_set_cpu cpu m
              else cpumask_clear_cpu cpu m)
          else st.dom_direct_greedy d } := by
  simp only [refresh_tune_cpu, hon, Bool.false_eq_true, if_false, hlb]
  by_cases h1 : input.direct_greedy_cpumask.testBit cpu <;>
    by_cases h2 : input.kick_greedy_cpumask.testBit cpu <;>
      simp [h1, h2]

theorem refresh_tune_cpu_none (topo : TopoEnv) (denv : DomEnv)
    (input : TuneInput) (cpu : Nat) (st : TuneState)
    (hon : is_offline_cpu topo cpu = false)
    (hlb : denv.lb_domain_get (cpu_to_dom_id topo cpu) = none) :
    refresh_tune_cpu topo denv input cpu st = none := by
  simp [refresh_tune_cpu, hon, hlb]

theorem refresh_tune_cpu_gen_slice (topo : TopoEnv) (denv : DomEnv)
    (input : TuneInput) (cpu : Nat) (st st2 : TuneState)
    (h : refresh_tune_cpu topo denv input cpu st = some st2) :
    st2.tune_params_gen = st.tune_params_gen ∧ st2.slice_ns = st.slice_ns := by
  by_cases hon : is_offline_cpu topo cpu
  · rw [refresh_tune_cpu_offline topo denv input cpu st hon] at h
    cases h
    exact ⟨rfl, rfl⟩
  · rw [Bool.not_eq_true] at hon
    cases hlb : denv.lb_domain_get (cpu_to_dom_id topo cpu) with
    | none =>
      rw [refresh_tune_cpu_none topo denv input cpu st hon hlb] at h
      cases h
    | some lb =>
      rw [refresh_tune_cpu_online topo denv input cpu st lb hon hlb] at h
      cases h
      exact ⟨rfl, rfl⟩

theorem refresh_tune_cpus_gen_slice (topo : TopoEnv) (denv : DomEnv)
    (input : TuneInput) (cpus : List Nat) (st : TuneState) :
    (refresh_tune_cpus topo denv input cpus st).tune_params_gen
        = st.tune_params_gen ∧
    (refresh_tune_cpus topo denv input cpus st).slice_ns = st.slice_ns := by
  induction cpus generalizing st with
  | nil => exact ⟨rfl, rfl⟩
  | cons cpu rest ih =>
    simp only [refresh_tune_cpus]
    cases h : refresh_tune_cpu topo denv input cpu st with
    | none => exact ⟨rfl, rfl⟩
    | some st2 =>
      obtain ⟨h1, h2⟩ := refresh_tune_cpu_gen_slice topo denv input cpu st st2 h
      obtain ⟨h3, h4⟩ := ih st2
      exact ⟨h3.trans h1, h4.trans h2⟩

theorem refresh_tune_cpu_dg_bit (topo : TopoEnv) (denv : DomEnv)
    (input : TuneInput) (cpu : Nat) (st st2 : TuneState) (c : Nat)
    (h : refresh_tune_cpu topo denv input cpu st = some st2) :
    st2.direct_greedy_cpumask.map (fun m => m.testBit c)
      = st.direct_greedy_cpumask.map (fun m =>
          if c = cpu ∧ is_offline_cpu topo cpu = false then
            input.direct_greedy_cpumask.testBit cpu
          else m.testBit c) := by
  by_cases hon : is_offline_cpu topo cpu
  · rw [refresh_tune_cpu_offline topo denv input cpu st hon] at h
    cases h
    simp [hon]
  · rw [Bool.not_eq_true] at hon
    cases hlb : denv.lb_domain_get (cpu_to_dom_id topo cpu) with
    | none =>
      rw [refresh_tune_cpu_none topo denv input cpu st hon hlb] at h
      cases h
    | some lb =>
      rw [refresh_tune_cpu_online topo denv input cpu st lb hon hlb] at h
      cases h
      cases st.direct_greedy_cpumask with
      | none => rfl
      | some m =>
        simp only [Option.map_some, Option.map_map, Option.some.injEq, hon]
        by_cases hc : c = cpu
        · subst hc
          by_cases hb : input.direct_greedy_cpumask.testBit c <;>
            simp [hb, cpumask_set_cpu_testBit, cpumask_clear_cpu_testBit]
        · by_cases hb : input.direct_greedy_cpumask.testBit cpu <;>
            simp [hb, hc, cpumask_set_cpu_testBit, cpumask_clear_cpu_testBit]

theorem refresh_tune_cpus_dg_bit_not_mem (topo : TopoEnv) (denv : DomEnv)
    (input : TuneInput) (cpus : List Nat) (c : Nat) (hcm : c ∉ cpus)
    (st : TuneState) :
    (refresh_tune_cpus topo denv input cpus st).direct_greedy_cpumask.map
        (fun m => m.testBit c)
      = st.direct_greedy_cpumask.map (fun m => m.testBit c) := by
  induction cpus generalizing st with
  | nil => rfl
  | cons y ys ihy =>
    simp only [refresh_tune_cpus]
    cases hy : refresh_tune_cpu topo denv input y st with
    | none => rfl
    | some st4 =>
      rw [ihy (fun hh => hcm (List.mem_cons_of_mem y hh)) st4]
      have hb := refresh_tune_cpu_dg_bit topo denv input y st st4 c hy
      have hcy : c ≠ y := fun hh => hcm (hh ▸ List.mem_cons_self y ys)
      simpa [hcy] using hb

theorem refresh_tune_cpus_dg_bit (topo : TopoEnv) (denv : DomEnv)
    (input : TuneInput) (cpus : List Nat) (st : TuneState) (c : Nat)
    (hall : ∀ x ∈ cpus, is_offline_cpu topo x = false →
      (denv.lb_domain_get (cpu_to_dom_id topo x)).isSome)
    (hc : c ∈ cpus) (hon : is_offline_cpu topo c = false) :
    (refresh_tune_cpus topo denv input cpus st).direct_greedy_cpumask.map
        (fun m => m.testBit c)
      = st.direct_greedy_cpumask.map
          (fun _ => input.direct_greedy_cpumask.testBit c) := by
  induction cpus generalizing st with
  | nil => cases hc
  | cons cpu rest ih =>
    have hstep : ∃ st2, refresh_tune_cpu topo denv input cpu st = some st2 := by
      by_cases hcon : is_offline_cpu topo cpu
      · exact ⟨st, refresh_tune_cpu_offline topo denv input cpu st hcon⟩
      · rw [Bool.not_eq_true] at hcon
        have := hall cpu (List.mem_cons_self cpu rest) hcon
        cases hlb : denv.lb_domain_get (cpu_to_dom_id topo cpu) with
        | none => rw [hlb] at this; cases this
        | some lb =>
          exact ⟨_, refresh_tune_cpu_online topo denv input cpu st lb hcon hlb⟩
    obtain ⟨st2, hstep⟩ := hstep
    simp only [refresh_tune_cpus, hstep]
    have hbit := refresh_tune_cpu_dg_bit topo denv input cpu st st2 c hstep
    by_cases hcr : c ∈ rest
    · rw [ih st2 (fun x hx => hall x (List.mem_cons_of_mem cpu hx)) hcr]
      cases hst : st.direct_greedy_cpumask with
      | none => rw [hst] at hbit; cases hdg : st2.direct_greedy_cpumask with
        | none => rfl
        | some m2 => rw [hdg] at hbit; cases hbit
      | some m => rw [hst] at hbit; cases hdg : st2.direct_greedy_cpumask with
        | none => rw [hdg] at hbit; cases hbit
        | some m2 => rfl
    · have hcx : c = cpu := by
        cases List.mem_cons.mp hc with
        | inl h => exact h
        | inr h => exact absurd h hcr
      subst hcx
      rw [refresh_tune_cpus_dg_bit_not_mem topo denv input rest c hcr st2, hbit]
      simp [hon]

/-- C9: when the live tuning generation equals the cached one,
`refresh_tune_params` returns the derived state completely unchanged (slice,
global and per-domain direct-greedy masks, kick-greedy mask and cached
generation); when it differs, the cached generation and slice are taken from
the tuning input and the direct-greedy mask bits of the online CPUs are
recomputed from the tuning input. -/
theorem refresh_tune_params_generation
    (topo : TopoEnv) (denv : DomEnv) (input : TuneInput) (st : TuneState)
    (hall : ∀ x ∈ List.range topo.nr_cpu_ids, is_offline_cpu topo x = false →
      (denv.lb_domain_get (cpu_to_dom_id topo x)).isSome) :
    (st.tune_params_gen = input.gen → refresh_tune_params topo denv input st = st)
    ∧ (st.tune_params_gen ≠ input.gen →
        (refresh_tune_params topo denv input st).tune_params_gen = input.gen
        ∧ (refresh_tune_params topo denv input st).slice_ns = input.slice_ns
        ∧ ∀ c < topo.nr_cpu_ids, is_offline_cpu topo c = false →
            (refresh_tune_params topo denv input st).direct_greedy_cpumask.map
                (fun m => m.testBit c)
              = st.direct_greedy_cpumask.map
                  (fun _ => input.direct_greedy_cpumask.testBit c)) := by
  constructor
  · intro hgen
    simp [refresh_tune_params, hgen]
  · intro hgen
    simp only [refresh_tune_params, hgen, if_false]
    refine ⟨?_, ?_, ?_⟩
    · exact (refresh_tune_cpus_gen_slice topo denv input _ _).1
    · exact (refresh_tune_cpus_gen_slice topo denv input _ _).2
    · intro c hclt hcon
      exact refresh_tune_cpus_dg_bit topo denv input _ _ c hall
        (List.mem_range.mpr hclt) hcon

/-- Concrete instantiation of C9, equal-generation side: one online CPU, one
domain, cached generation 3 equal to the live one — the state is returned
untouched. -/
theorem refresh_tune_params_generation_witness :
    (TuneState.mk 3 1000 (some 0) (some 0) (fun _ => some 0)).tune_params_gen
        = (TuneInput.mk 3 2000 1 1).gen
    ∧ refresh_tune_params
        (TopoEnv.mk (fun c => if c = 0 then some 0 else none) 1 1 1)
        (DomEnv.mk (fun d => if d = 0 then
            some (LbDomain.mk (some 1) (some 0) (some 1)) else none)
          (fun _ => none) (fun _ => 0))
        (TuneInput.mk 3 2000 1 1)
        (TuneState.mk 3 1000 (some 0) (some 0) (fun _ => some 0))
      = TuneState.mk 3 1000 (some 0) (some 0) (fun _ => some 0) :=
  ⟨rfl,
   (refresh_tune_params_generation
      (TopoEnv.mk (fun c => if c = 0 then some 0 else none) 1 1 1)
      (DomEnv.mk (fun d => if d = 0 then
          some (LbDomain.mk (some 1) (some 0) (some 1)) else none)
        (fun _ => none) (fun _ => 0))
      (TuneInput.mk 3 2000 1 1)
      (TuneState.mk 3 1000 (some 0) (some 0) (fun _ => some 0))
      (by decide)).1 rfl⟩

theorem lowest_bit_fuel_testBit (fuel : Nat) : ∀ m : Nat, 0 < m → m ≤ fuel →
    m.testBit (lowest_bit_fuel fuel m) = true := by
  induction fuel with
  | zero => intro m hm hf; omega
  | succ f ih =>
    intro m hm hf
    simp only [lowest_bit_fuel]
    by_cases h2 : m % 2 = 1
    · simp [h2, Nat.testBit_zero]
    · have hm2 : 0 < m / 2 := by omega
      have hf2 : m / 2 ≤ f := by omega
      simp only [h2, if_false, Nat.testBit_succ]
      exact ih (m / 2) hm2 hf2

theorem lowest_set_bit_testBit (m : Nat) (hm : 0 < m) :
    m.testBit (lowest_set_bit m) = true :=
  lowest_bit_fuel_testBit m m hm le_rfl

theorem lowest_set_bit_lt (m n : Nat) (hm : 0 < m) (hlt : m < 2 ^ n) :
    lowest_set_bit m < n := by
  by_contra h
  push_neg at h
  have htb := lowest_set_bit_testBit m hm
  have hge : 2 ^ lowest_set_bit m ≤ m := Nat.testBit_implies_ge htb
  have : (2 : Nat) ^ n ≤ 2 ^ lowest_set_bit m :=
    Nat.pow_le_pow_right (by omega) h
  omega

theorem cpumask_any_distribute_mem (m : Cpumask) (n : Nat) (hm : m ≠ 0)
    (hlt : m < 2 ^ n) :
    cpumask_any_distribute m n < n
    ∧ cpumask_test_cpu (cpumask_any_distribute m n) m = true := by
  simp only [cpumask_any_distribute, hm, if_false, cpumask_test_cpu]
  exact ⟨lowest_set_bit_lt m n (Nat.pos_of_ne_zero hm) hlt,
         lowest_set_bit_testBit m (Nat.pos_of_ne_zero hm)⟩

/-- C5: on the `rusty_running` path that records the task in the
recently-active ring (the generations differ), the slot written is the
fetched-and-incremented cursor modulo the ring capacity, hence strictly below
the capacity; the out-of-bounds error branch after the modulo is not taken
(no error event, the write happens and the cursor advances by one); and the
modulo makes successive writes wrap: a cursor a full capacity later lands on
the same slot, overwriting it. -/
theorem rusty_running_ring_bounded
    (cap : Nat) (fifo_sched : Bool) (now : Nat) (p : TaskP) (taskc : TaskCtx)
    (domc : DomCtx) (hcap : 0 < cap)
    (hgen : taskc.dom_active_tasks_gen ≠ (domc.active_gen : Int)) :
    domc.active_write_idx % cap < cap
    ∧ (∃ domc2,
        (rusty_running cap fifo_sched now p taskc (some domc)).2.2 =
          (some domc2, ([] : List Ev))
        ∧ domc2.active_write_idx = domc.active_write_idx + 1
        ∧ domc2.active_gen = domc.active_gen
        ∧ ∀ j, domc2.active_tasks j =
            if j = domc.active_write_idx % cap then some p.pid
            else domc.active_tasks j)
    ∧ (domc.active_write_idx + cap) % cap = domc.active_write_idx % cap := by
  have hidx : domc.active_write_idx % cap < cap := Nat.mod_lt _ hcap
  refine ⟨hidx, ?_, Nat.add_mod_right _ _⟩
  have hdomc2 : ∀ b, (rusty_running cap b now p taskc (some domc)).2.2 =
      (some { domc with
                active_write_idx := domc.active_write_idx + 1
                active_tasks := fun j =>
                  if j = domc.active_write_idx % cap then some p.pid
                  else domc.active_tasks j },
       ([] : List Ev)) := by
    intro b
    cases b <;> simp [rusty_running, hgen, Nat.not_le.mpr hidx]
  exact ⟨_, hdomc2 fifo_sched, rfl, rfl, fun j => rfl⟩

/-- Concrete instantiation of C5 matching the spec scenario: capacity 8,
cursor already at 9 (second wrap), generation mismatch; the write lands in
slot 1 and the cursor moves to 10. -/
theorem rusty_running_ring_bounded_witness :
    (0 : Nat) < 8
    ∧ ((TaskCtx.mk 0 (some 0) 1 false false 100 true false 1 0 (-1) 0 0 0 0 0 0).dom_active_tasks_gen
        ≠ ((DomCtx.mk 0 0 5 9 (fun _ => none)).active_gen : Int))
    ∧ ((DomCtx.mk 0 0 5 9 (fun _ => none)).active_write_idx % 8 < 8
      ∧ (∃ domc2,
          (rusty_running 8 false 77 (TaskP.mk 42 1 1 false false false 0)
            (TaskCtx.mk 0 (some 0) 1 false false 100 true false 1 0 (-1) 0 0 0 0 0 0)
            (some (DomCtx.mk 0 0 5 9 (fun _ => none)))).2.2 =
            (some domc2, ([] : List Ev))
          ∧ domc2.active_write_idx = (DomCtx.mk 0 0 5 9 (fun _ => none)).active_write_idx + 1
          ∧ domc2.active_gen = (DomCtx.mk 0 0 5 9 (fun _ => none)).active_gen
          ∧ ∀ j, domc2.active_tasks j =
              if j = (DomCtx.mk 0 0 5 9 (fun _ => none)).active_write_idx % 8 then
                some (TaskP.mk 42 1 1 false false false 0).pid
              else (DomCtx.mk 0 0 5 9 (fun _ => none)).active_tasks j)
      ∧ ((DomCtx.mk 0 0 5 9 (fun _ => none)).active_write_idx + 8) % 8 =
          (DomCtx.mk 0 0 5 9 (fun _ => none)).active_write_idx % 8) :=
  ⟨by decide, by decide,
   rusty_running_ring_bounded 8 false 77 (TaskP.mk 42 1 1 false false false 0)
     (TaskCtx.mk 0 (some 0) 1 false false 100 true false 1 0 (-1) 0 0 0 0 0 0)
     (DomCtx.mk 0 0 5 9 (fun _ => none)) (by decide) (by decide)⟩

theorem task_set_domain_success_eq
    (env : DomEnv) (p : TaskP) (taskc : TaskCtx) (new_dom_id : Nat)
    (init_dsq_vtime : Bool) (now : Nat)
    (odc : DomCtx) (hold : env.dom_ctx taskc.target_dom = some odc)
    (hsent : new_dom_id ≠ NO_DOM_FOUND)
    (ndc : DomCtx) (hnew : env.dom_ctx new_dom_id = some ndc)
    (lbd : LbDomain) (hlb : env.lb_domain_get new_dom_id = some lbd)
    (dmask : Cpumask) (hmask : lbd.cpumask = some dmask)
    (hint : cpumask_has_intersect dmask p.cpus_ptr = true) :
    task_set_domain env p taskc new_dom_id init_dsq_vtime now =
      ({ p with dsq_vtime := ndc.min_vruntime },
       { taskc with target_dom := new_dom_id, domc := some new_dom_id,
                    t_cpumask := cpumask_and dmask p.cpus_ptr },
       (if init_dsq_vtime then [] else [Ev.xferTask new_dom_id now]),
       true) := by
  cases init_dsq_vtime <;>
    simp [task_set_domain, hold, hsent, hnew, hlb, hmask, hint, init_vtime]

theorem rusty_enqueue_dom_queue_state (env : EnqEnv) (p : TaskP)
    (taskc : TaskCtx) (evs : List Ev) (cpu : Int) :
    (rusty_enqueue_dom_queue env p taskc evs cpu).1 = p
    ∧ (rusty_enqueue_dom_queue env p taskc evs cpu).2.1 = taskc
    ∧ (rusty_enqueue_dom_queue env p taskc evs cpu).2.2.2 =
        (if env.fifo_sched then InsertAct.dsqInsert taskc.target_dom env.slice_ns
         else InsertAct.deadlineInsert taskc.target_dom)
    ∧ ∃ tail, (rusty_enqueue_dom_queue env p taskc evs cpu).2.2.1 = evs ++ tail :=
  ⟨rfl, rfl, rfl, _, rfl⟩

theorem rusty_enqueue_post_migration_state (env : EnqEnv) (p : TaskP)
    (taskc : TaskCtx) (evs : List Ev) (cpu : Int) :
    (rusty_enqueue_post_migration env p taskc evs cpu).1 = p
    ∧ (rusty_enqueue_post_migration env p taskc evs cpu).2.1.target_dom =
        taskc.target_dom
    ∧ ((rusty_enqueue_post_migration env p taskc evs cpu).2.2.2 =
          InsertAct.localInsert env.slice_ns
        ∨ (rusty_enqueue_post_migration env p taskc evs cpu).2.2.2 =
            (if env.fifo_sched then
              InsertAct.dsqInsert taskc.target_dom env.slice_ns
             else InsertAct.deadlineInsert taskc.target_dom)) := by
  unfold rusty_enqueue_post_migration
  by_cases hdl : taskc.dispatch_local
  · simp [hdl]
  · simp only [hdl, Bool.false_eq_true, if_false]
    split
    · obtain ⟨h1, h2, h3, _⟩ := rusty_enqueue_dom_queue_state env p taskc
        (evs ++ (if cpumask_any_distribute taskc.t_cpumask env.nr_cpu_ids <
          env.nr_cpu_ids then
            [Ev.kick (cpumask_any_distribute taskc.t_cpumask env.nr_cpu_ids)]
          else []) ++ [Ev.stat RustyStat.repatriate 1])
        ((cpumask_any_distribute taskc.t_cpumask env.nr_cpu_ids : Int))
      exact ⟨h1, by rw [h2], Or.inr h3⟩
    · obtain ⟨h1, h2, h3, _⟩ := rusty_enqueue_dom_queue_state env p taskc evs cpu
      exact ⟨h1, by rw [h2], Or.inr h3⟩

/-- C2: when the balancer has pointed `taskc->domc` at a domain different
from the current assignment `taskc->target_dom` and the migration succeeds
(the new domain exists and its CPU mask still meets the hard affinity),
`rusty_enqueue` migrates the task to that target domain, counts one load
balance, clears the local-dispatch flag, kicks a CPU inside the new working
cpumask (new domain mask ∩ affinity), and inserts the task into the target
domain queue — never a local CPU queue. -/
theorem rusty_enqueue_migrates_to_target
    (env : EnqEnv) (p : TaskP) (taskc : TaskCtx) (d : Nat)
    (hdomc : taskc.domc = some d)
    (hdiff : d ≠ taskc.target_dom)
    (odc : DomCtx) (hold : env.denv.dom_ctx taskc.target_dom = some odc)
    (hsent : d ≠ NO_DOM_FOUND)
    (ndc : DomCtx) (hnew : env.denv.dom_ctx d = some ndc)
    (lbd : LbDomain) (hlb : env.denv.lb_domain_get d = some lbd)
    (dmask : Cpumask) (hmask : lbd.cpumask = some dmask)
    (hint : cpumask_has_intersect dmask p.cpus_ptr = true)
    (hbound : cpumask_and dmask p.cpus_ptr < 2 ^ env.nr_cpu_ids) :
    (rusty_enqueue env p taskc).2.1.target_dom = d
    ∧ (rusty_enqueue env p taskc).2.1.domc = some d
    ∧ (rusty_enqueue env p taskc).2.1.dispatch_local = false
    ∧ (rusty_enqueue env p taskc).2.1.t_cpumask = cpumask_and dmask p.cpus_ptr
    ∧ Ev.stat RustyStat.load_balance 1 ∈ (rusty_enqueue env p taskc).2.2.1
    ∧ (∃ c, c < env.nr_cpu_ids
        ∧ cpumask_test_cpu c (cpumask_and dmask p.cpus_ptr) = true
        ∧ Ev.kick c ∈ (rusty_enqueue env p taskc).2.2.1)
    ∧ (rusty_enqueue env p taskc).2.2.2 =
        (if env.fifo_sched then InsertAct.dsqInsert d env.slice_ns
         else InsertAct.deadlineInsert d) := by
  have hmz : cpumask_and dmask p.cpus_ptr ≠ 0 := by
    simpa [cpumask_has_intersect, cpumask_and] using hint
  obtain ⟨hclt, hctb⟩ := cpumask_any_distribute_mem (cpumask_and dmask p.cpus_ptr)
    env.nr_cpu_ids hmz hbound
  have henq : rusty_enqueue env p taskc =
      rusty_enqueue_dom_queue env
        { p with dsq_vtime := ndc.min_vruntime }
        { taskc with target_dom := d, domc := some d, dispatch_local := false,
                     t_cpumask := cpumask_and dmask p.cpus_ptr }
        ([Ev.xferTask d env.now] ++ [Ev.stat RustyStat.load_balance 1] ++
          [Ev.kick (cpumask_any_distribute (cpumask_and dmask p.cpus_ptr)
            env.nr_cpu_ids)])
        ((cpumask_any_distribute (cpumask_and dmask p.cpus_ptr)
          env.nr_cpu_ids : Int)) := by
    rw [rusty_enqueue, hdomc]
    simp only [hdiff, ne_eq, not_false_eq_true, if_true,
      task_set_domain_success_eq env.denv p taskc d false env.now odc hold hsent
        ndc hnew lbd hlb dmask hmask hint]
    simp [hclt]
  obtain ⟨h1, h2, h3, tail, h4⟩ := rusty_enqueue_dom_queue_state env
    { p with dsq_vtime := ndc.min_vruntime }
    { taskc with target_dom := d, domc := some d, dispatch_local := false,
                 t_cpumask := cpumask_and dmask p.cpus_ptr }
    ([Ev.xferTask d env.now] ++ [Ev.stat RustyStat.load_balance 1] ++
      [Ev.kick (cpumask_any_distribute (cpumask_and dmask p.cpus_ptr)
        env.nr_cpu_ids)])
    ((cpumask_any_distribute (cpumask_and dmask p.cpus_ptr)
      env.nr_cpu_ids : Int))
  rw [henq, h2, h3, h4]
  refine ⟨rfl, rfl, rfl, rfl, by simp, ⟨_, hclt, hctb, by simp⟩, rfl⟩

/-- Concrete instantiation of C2: two domains ({0} and {1} over CPUs 0-1 in
mask form 1 and 2), task currently in domain 0 with affinity {0,1}, balancer
pointed `domc` at domain 1; the enqueue migrates it there, kicks CPU 1 and
routes it to the domain 1 queue. -/
theorem rusty_enqueue_migrates_to_target_witness :
    (rusty_enqueue
      (EnqEnv.mk
        (DomEnv.mk
          (fun d => if d = 0 then some (LbDomain.mk (some 1) (some 0) (some 1))
                    else if d = 1 then some (LbDomain.mk (some 2) (some 0) (some 2))
                    else none)
          (fun d => if d = 0 then some (DomCtx.mk 0 0 0 0 (fun _ => none))
                    else if d = 1 then some (DomCtx.mk 1 0 0 0 (fun _ => none))
                    else none)
          (fun _ => 0))
        1000 false 4 none 0 0 5)
      (TaskP.mk 7 3 2 false false false 42)
      (TaskCtx.mk 0 (some 1) 1 false false 100 true false 3 0 0 0 0 0 0 0 0)).2.1.target_dom = 1
    ∧ (rusty_enqueue
      (EnqEnv.mk
        (DomEnv.mk
          (fun d => if d = 0 then some (LbDomain.mk (some 1) (some 0) (some 1))
                    else if d = 1 then some (LbDomain.mk (some 2) (some 0) (some 2))
                    else none)
          (fun d => if d = 0 then some (DomCtx.mk 0 0 0 0 (fun _ => none))
                    else if d = 1 then some (DomCtx.mk 1 0 0 0 (fun _ => none))
                    else none)
          (fun _ => 0))
        1000 false 4 none 0 0 5)
      (TaskP.mk 7 3 2 false false false 42)
      (TaskCtx.mk 0 (some 1) 1 false false 100 true false 3 0 0 0 0 0 0 0 0)).2.1.dispatch_local = false
    ∧ (∃ c, c < 4
        ∧ cpumask_test_cpu c (cpumask_and 2 3) = true
        ∧ Ev.kick c ∈ (rusty_enqueue
            (EnqEnv.mk
              (DomEnv.mk
                (fun d => if d = 0 then some (LbDomain.mk (some 1) (some 0) (some 1))
                          else if d = 1 then some (LbDomain.mk (some 2) (some 0) (some 2))
                          else none)
                (fun d => if d = 0 then some (DomCtx.mk 0 0 0 0 (fun _ => none))
                          else if d = 1 then some (DomCtx.mk 1 0 0 0 (fun _ => none))
                          else none)
                (fun _ => 0))
              1000 false 4 none 0 0 5)
            (TaskP.mk 7 3 2 false false false 42)
            (TaskCtx.mk 0 (some 1) 1 false false 100 true false 3 0 0 0 0 0 0 0 0)).2.2.1) := by
  obtain ⟨h1, _h2, h3, _h4, _h5, h6, _h7⟩ :=
    rusty_enqueue_migrates_to_target
      (EnqEnv.mk
        (DomEnv.mk
          (fun d => if d = 0 then some (LbDomain.mk (some 1) (some 0) (some 1))
                    else if d = 1 then some (LbDomain.mk (some 2) (some 0) (some 2))
                    else none)
          (fun d => if d = 0 then some (DomCtx.mk 0 0 0 0 (fun _ => none))
                    else if d = 1 then some (DomCtx.mk 1 0 0 0 (fun _ => none))
                    else none)
          (fun _ => 0))
        1000 false 4 none 0 0 5)
      (TaskP.mk 7 3 2 false false false 42)
      (TaskCtx.mk 0 (some 1) 1 false false 100 true false 3 0 0 0 0 0 0 0 0)
      1 rfl (by decide)
      (DomCtx.mk 0 0 0 0 (fun _ => none)) rfl
      (by decide)
      (DomCtx.mk 1 0 0 0 (fun _ => none)) rfl
      (LbDomain.mk (some 2) (some 0) (some 2)) rfl
      2 rfl (by decide) (by decide)
  exact ⟨h1, h3, h6⟩

/-- C8: with the per-instance fifo mode enabled, `rusty_enqueue` never uses
the deadline placement — every insertion is FIFO with the current slice,
going to the chosen local CPU queue or to the task domain queue — and the
vtime/deadline updates of the runnable, running, stopping and quiescent hooks
are all skipped: `sum_runtime` and the waker record, the task vtime and
`last_run_at`, the whole stopping update, and the block-frequency bookkeeping
all keep their prior values. -/
theorem fifo_mode_bypasses_vtime_engine
    (env : EnqEnv) (hfifo : env.fifo_sched = true)
    (p : TaskP) (taskc : TaskCtx) (cap now : Nat) (domc : Option DomCtx)
    (waker : Option TaskCtx) (runnable_flag : Bool) :
    (∀ dsq, (rusty_enqueue env p taskc).2.2.2 ≠ InsertAct.deadlineInsert dsq)
    ∧ ((rusty_enqueue env p taskc).2.2.2 = InsertAct.noInsert
       ∨ (rusty_enqueue env p taskc).2.2.2 = InsertAct.localInsert env.slice_ns
       ∨ (rusty_enqueue env p taskc).2.2.2 =
           InsertAct.dsqInsert (rusty_enqueue env p taskc).2.1.target_dom
             env.slice_ns)
    ∧ (rusty_runnable env.fifo_sched now p taskc waker).1.sum_runtime
        = taskc.sum_runtime
    ∧ (rusty_runnable env.fifo_sched now p taskc waker).2.1 = waker
    ∧ (rusty_running cap env.fifo_sched now p taskc domc).1 = p
    ∧ (rusty_running cap env.fifo_sched now p taskc domc).2.1.last_run_at
        = taskc.last_run_at
    ∧ rusty_stopping env.fifo_sched now p taskc runnable_flag = (p, taskc)
    ∧ (rusty_quiescent env.fifo_sched now p taskc).1.blocked_freq
        = taskc.blocked_freq
    ∧ (rusty_quiescent env.fifo_sched now p taskc).1.last_blocked_at
        = taskc.last_blocked_at := by
  have hact : (rusty_enqueue env p taskc).2.2.2 = InsertAct.noInsert
      ∨ (rusty_enqueue env p taskc).2.2.2 = InsertAct.localInsert env.slice_ns
      ∨ (rusty_enqueue env p taskc).2.2.2 =
          InsertAct.dsqInsert (rusty_enqueue env p taskc).2.1.target_dom
            env.slice_ns := by
    rw [rusty_enqueue]
    cases hdomc : taskc.domc with
    | none => exact Or.inl rfl
    | some dom_id =>
      dsimp only
      by_cases hdiff : dom_id ≠ taskc.target_dom
      · rcases htsd : task_set_domain env.denv p taskc dom_id false env.now with
          ⟨p2, taskc2, evs2, b⟩
        cases b with
        | true =>
          rw [if_pos hdiff]
          dsimp only
          obtain ⟨_, h2, h3, _⟩ := rusty_enqueue_dom_queue_state env p2
            { taskc2 with dispatch_local := false }
            (evs2 ++ [Ev.stat RustyStat.load_balance 1] ++
              (if cpumask_any_distribute taskc2.t_cpumask env.nr_cpu_ids <
                  env.nr_cpu_ids then
                [Ev.kick (cpumask_any_distribute taskc2.t_cpumask env.nr_cpu_ids)]
              else []))
            ((cpumask_any_distribute taskc2.t_cpumask env.nr_cpu_ids : Int))
          rw [h3, h2, hfifo]
          exact Or.inr (Or.inr (by simp))
        | false =>
          rw [if_pos hdiff]
          dsimp only
          obtain ⟨_, h2, h3⟩ := rusty_enqueue_post_migration_state env p2 taskc2
            evs2 (-1)
          rcases h3 with h3 | h3
          · exact Or.inr (Or.inl h3)
          · rw [hfifo] at h3
            simp only [if_true] at h3
            rw [h3, h2]
            exact Or.inr (Or.inr rfl)
      · rw [if_neg hdiff]
        obtain ⟨_, h2, h3⟩ := rusty_enqueue_post_migration_state env p taskc [] (-1)
        rcases h3 with h3 | h3
        · exact Or.inr (Or.inl h3)
        · rw [hfifo] at h3
          simp only [if_true] at h3
          rw [h3, h2]
          exact Or.inr (Or.inr rfl)
  refine ⟨?_, hact, ?_, ?_, ?_, ?_, ?_, ?_, ?_⟩
  · intro dsq hEq
    rcases hact with h | h | h <;> rw [hEq] at h <;> cases h
  · rw [hfifo]; simp [rusty_runnable, task_load_adj]
  · rw [hfifo]; simp [rusty_runnable, task_load_adj]
  · rw [hfifo]
    cases domc with
    | none => rfl
    | some dc =>
      by_cases hgen : taskc.dom_active_tasks_gen ≠ (dc.active_gen : Int) <;>
        by_cases hidx : dc.active_write_idx % cap ≥ cap <;>
          simp [rusty_running, hgen, hidx]
  · rw [hfifo]
    cases domc with
    | none => rfl
    | some dc =>
      by_cases hgen : taskc.dom_active_tasks_gen ≠ (dc.active_gen : Int) <;>
        by_cases hidx : dc.active_write_idx % cap ≥ cap <;>
          simp [rusty_running, hgen, hidx]
  · rw [hfifo]; rfl
  · rw [hfifo]
    cases hd : taskc.domc <;> simp [rusty_quiescent, hd, task_load_adj]
  · rw [hfifo]
    cases hd : taskc.domc <;> simp [rusty_quiescent, hd, task_load_adj]

/-- Concrete instantiation of C8: fifo mode on, a task already in its target
domain with the local-dispatch flag clear — the insertion is a FIFO insert
into its domain queue with the current slice, and the hooks leave the
deadline bookkeeping untouched. -/
theorem fifo_mode_bypasses_vtime_engine_witness :
    ((EnqEnv.mk (DomEnv.mk (fun _ => none) (fun _ => none) (fun _ => 0))
        1000 true 4 none 0 0 5).fifo_sched = true)
    ∧ (∀ dsq, (rusty_enqueue
        (EnqEnv.mk (DomEnv.mk (fun _ => none) (fun _ => none) (fun _ => 0))
          1000 true 4 none 0 0 5)
        (TaskP.mk 7 3 2 false false false 42)
        (TaskCtx.mk 0 (some 0) 1 false false 100 true false 1 0 0 0 0 0 0 0 0)).2.2.2
          ≠ InsertAct.deadlineInsert dsq)
    ∧ rusty_stopping
        (EnqEnv.mk (DomEnv.mk (fun _ => none) (fun _ => none) (fun _ => 0))
          1000 true 4 none 0 0 5).fifo_sched 9
        (TaskP.mk 7 3 2 false false false 42)
        (TaskCtx.mk 0 (some 0) 1 false false 100 true false 1 0 0 0 0 0 0 0 0) true
      = ((TaskP.mk 7 3 2 false false false 42),
         (TaskCtx.mk 0 (some 0) 1 false false 100 true false 1 0 0 0 0 0 0 0 0)) := by
  obtain ⟨h1, _h2, _h3, _h4, _h5, _h6, h7, _h8, _h9⟩ :=
    fifo_mode_bypasses_vtime_engine
      (EnqEnv.mk (DomEnv.mk (fun _ => none) (fun _ => none) (fun _ => 0))
        1000 true 4 none 0 0 5) rfl
      (TaskP.mk 7 3 2 false false false 42)
      (TaskCtx.mk 0 (some 0) 1 false false 100 true false 1 0 0 0 0 0 0 0 0)
      8 9 none none true
  exact ⟨rfl, h1, h7⟩

theorem dispatch_steal_same_node_len (env : DispEnv) (curr my : Nat) :
    ∀ fuel rr probes,
      ((dispatch_steal_same_node env curr my fuel rr probes).2.1).length
        ≤ probes.length + fuel := by
  intro fuel
  induction fuel with
  | zero =>
    intro rr probes
    simp [dispatch_steal_same_node]
  | succ f ih =>
    intro rr probes
    simp only [dispatch_steal_same_node]
    split
    · have := ih (rr + 1) probes
      omega
    · split
      · simp
      · have := ih (rr + 1) (probes ++ [rr % env.topo.nr_doms])
        simp at this
        omega

theorem dispatch_steal_xnuma_len (env : DispEnv) (curr my : Nat) :
    ∀ fuel rr probes,
      ((dispatch_steal_xnuma env curr my fuel rr probes).2.1).length
        ≤ probes.length + fuel := by
  intro fuel
  induction fuel with
  | zero =>
    intro rr probes
    simp [dispatch_steal_xnuma]
  | succ f ih =>
    intro rr probes
    simp only [dispatch_steal_xnuma]
    split
    · have := ih (rr + 1) probes
      omega
    · split
      · simp
      · have := ih (rr + 1) (probes ++ [rr % env.topo.nr_doms])
        simp at this
        omega

/-- C7: a dispatch call first tries the local domain queue — when that
succeeds nothing is probed — and performs at most `nr_doms − 1` same-node
steal probes and at most `nr_doms − 1` cross-node steal probes; the same-node
scan runs only when `greedy_threshold` is configured, and the cross-node scan
only when `greedy_threshold_x_numa` is configured and there is more than one
NUMA node. -/
theorem rusty_dispatch_bounded_probes (env : DispEnv) (cpu : Nat)
    (rr0 : Option Nat) :
    (rusty_dispatch env cpu rr0).same_node_probes.length ≤ env.topo.nr_doms - 1
    ∧ (rusty_dispatch env cpu rr0).xnuma_probes.length ≤ env.topo.nr_doms - 1
    ∧ (is_offline_cpu env.topo cpu = false →
        env.dsq_move (cpu_to_dom_id env.topo cpu) = true →
        (rusty_dispatch env cpu rr0).same_node_probes = []
        ∧ (rusty_dispatch env cpu rr0).xnuma_probes = []
        ∧ (rusty_dispatch env cpu rr0).evs = [Ev.stat RustyStat.dsq_dispatch 1])
    ∧ (env.greedy_threshold = 0 →
        (rusty_dispatch env cpu rr0).same_node_probes = []
        ∧ (rusty_dispatch env cpu rr0).xnuma_probes = [])
    ∧ (env.greedy_threshold_x_numa = 0 ∨ env.topo.nr_nodes = 1 →
        (rusty_dispatch env cpu rr0).xnuma_probes = []) := by
  unfold rusty_dispatch
  by_cases hoff : is_offline_cpu env.topo cpu
  · simp [hoff]
  · rw [Bool.not_eq_true] at hoff
    simp only [hoff, Bool.false_eq_true, if_false]
    by_cases hmove : env.dsq_move (cpu_to_dom_id env.topo cpu)
    · simp [hmove]
    · rw [Bool.not_eq_true] at hmove
      simp only [hmove, Bool.false_eq_true, if_false]
      by_cases hth : env.greedy_threshold = 0
      · simp [hth]
      · simp only [hth, if_false]
        cases rr0 with
        | none => simp
        | some rr =>
          simp only
          rcases hsame : dispatch_steal_same_node env
            (cpu_to_dom_id env.topo cpu)
            (env.dom_node_id (cpu_to_dom_id env.topo cpu))
            (env.topo.nr_doms - 1) rr [] with ⟨rr1, probes1, stole1⟩
          have hlen1 : probes1.length ≤ env.topo.nr_doms - 1 := by
            have := dispatch_steal_same_node_len env
              (cpu_to_dom_id env.topo cpu)
              (env.dom_node_id (cpu_to_dom_id env.topo cpu))
              (env.topo.nr_doms - 1) rr []
            rw [hsame] at this
            simpa using this
          cases stole1 with
          | some d => simp [hmove, hoff]; exact hlen1
          | none =>
            by_cases hx : env.greedy_threshold_x_numa = 0 ∨ env.topo.nr_nodes = 1
            · simp only [hx, if_true]
              simp [hlen1]
            · simp only [hx, if_false]
              rcases hxn : dispatch_steal_xnuma env
                (cpu_to_dom_id env.topo cpu)
                (env.dom_node_id (cpu_to_dom_id env.topo cpu))
                (env.topo.nr_doms - 1) rr1 [] with ⟨rr2, probes2, stole2⟩
              have hlen2 : probes2.length ≤ env.topo.nr_doms - 1 := by
                have := dispatch_steal_xnuma_len env
                  (cpu_to_dom_id env.topo cpu)
                  (env.dom_node_id (cpu_to_dom_id env.topo cpu))
                  (env.topo.nr_doms - 1) rr1 []
                rw [hxn] at this
                simpa using this
              cases stole2 with
              | some d => simp [hlen1, hlen2, hx]
              | none => simp [hlen1, hlen2, hx]

/-- Concrete instantiation of C7: three domains on two nodes, local queue
empty, same-node threshold configured, cross-node threshold off — the
same-node scan makes at most two probes and the cross-node scan none. -/
theorem rusty_dispatch_bounded_probes_witness :
    (rusty_dispatch
        (DispEnv.mk (TopoEnv.mk (fun c => if c = 0 then some 0 else none) 1 3 2)
          (fun d => if d = 0 then 0 else 1) 1 0 (fun _ => false) (fun _ => 0))
        0 (some 0)).same_node_probes.length ≤ 3 - 1
    ∧ (rusty_dispatch
        (DispEnv.mk (TopoEnv.mk (fun c => if c = 0 then some 0 else none) 1 3 2)
          (fun d => if d = 0 then 0 else 1) 1 0 (fun _ => false) (fun _ => 0))
        0 (some 0)).xnuma_probes = [] := by
  obtain ⟨h1, _, _, _, h5⟩ := rusty_dispatch_bounded_probes
    (DispEnv.mk (TopoEnv.mk (fun c => if c = 0 then some 0 else none) 1 3 2)
      (fun d => if d = 0 then 0 else 1) 1 0 (fun _ => false) (fun _ => 0))
    0 (some 0)
  exact ⟨h1, h5 (Or.inl rfl)⟩

/-- C3, evaluated at the failing input: three domains (domain 0 on node 0 is
the local one; domains 1 and 2 on node 1), cross-node threshold 2, domain 1
holding 5 queued tasks (at or above the threshold) and domain 2 holding 1
(below the threshold).  The cross-node scan visits both, yet it probes the
below-threshold domain 2 and skips the at-or-above-threshold domain 1 — the
exact opposite of the claimed skip condition: the code continues on
`nr_queued >= greedy_threshold_x_numa` where the spec skips occupancy below
the threshold. -/
theorem rusty_dispatch_xnuma_threshold_inverted :
    (rusty_dispatch
        (DispEnv.mk (TopoEnv.mk (fun c => if c = 0 then some 0 else none) 1 3 2)
          (fun d => if d = 0 then 0 else 1) 1 2 (fun _ => false)
          (fun d => if d = 1 then 5 else if d = 2 then 1 else 0))
        0 (some 2)).xnuma_probes = [2]
    ∧ (1 : Nat) <
        (DispEnv.mk (TopoEnv.mk (fun c => if c = 0 then some 0 else none) 1 3 2)
          (fun d => if d = 0 then 0 else 1) 1 2 (fun _ => false)
          (fun d => if d = 1 then 5 else if d = 2 then 1 else 0)).greedy_threshold_x_numa
    ∧ (5 : Nat) ≥
        (DispEnv.mk (TopoEnv.mk (fun c => if c = 0 then some 0 else none) 1 3 2)
          (fun d => if d = 0 then 0 else 1) 1 2 (fun _ => false)
          (fun d => if d = 1 then 5 else if d = 2 then 1 else 0)).greedy_threshold_x_numa
    ∧ (1 : Nat) ∉
        (rusty_dispatch
          (DispEnv.mk (TopoEnv.mk (fun c => if c = 0 then some 0 else none) 1 3 2)
            (fun d => if d = 0 then 0 else 1) 1 2 (fun _ => false)
            (fun d => if d = 1 then 5 else if d = 2 then 1 else 0))
          0 (some 2)).xnuma_probes := by
  refine ⟨?_, by decide, by decide, ?_⟩
  · rfl
  · decide

theorem mod_step_shift (n dom i : Nat) :
    ((dom + 1) % n + 1 + i) % n = (dom + 2 + i) % n := by
  rw [show (dom + 1) % n + 1 + i = (dom + 1) % n + (1 + i) by omega,
    Nat.mod_add_mod, show dom + 1 + (1 + i) = dom + 2 + i by omega]

theorem task_pick_domain_loop_mask (denv : DomEnv) (n : Nat)
    (cpumask : Cpumask) (pmask : Nat) :
    ∀ (fuel dom dm fd pd d : Nat),
      ((task_pick_domain_loop denv n cpumask pmask fuel dom dm fd pd).1.testBit d
        = true)
      ↔ (dm.testBit d = true
         ∨ ∃ i, i < fuel ∧ (dom + 1 + i) % n = d
             ∧ cpumask_intersects_domain denv cpumask d = true) := by
  intro fuel
  induction fuel with
  | zero =>
    intro dom dm fd pd d
    simp [task_pick_domain_loop]
  | succ f ih =>
    intro dom dm fd pd d
    simp only [task_pick_domain_loop]
    by_cases hint : cpumask_intersects_domain denv cpumask ((dom + 1) % n)
    · simp only [hint, if_true]
      have hrec : ∀ pd2 : Nat,
          ((task_pick_domain_loop denv n cpumask pmask f ((dom + 1) % n)
              (dm ||| 1 <<< ((dom + 1) % n))
              (if fd = NO_DOM_FOUND then (dom + 1) % n else fd) pd2).1.testBit d
            = true)
          ↔ (dm.testBit d = true
             ∨ ∃ i, i < f + 1 ∧ (dom + 1 + i) % n = d
                 ∧ cpumask_intersects_domain denv cpumask d = true) := by
        intro pd2
        rw [ih]
        have hset : (dm ||| 1 <<< ((dom + 1) % n)).testBit d
            = (dm.testBit d || (d == (dom + 1) % n)) :=
          cpumask_set_cpu_testBit ((dom + 1) % n) d dm
        rw [hset]
        constructor
        · rintro (hb | ⟨i, hi, heq, hP⟩)
          · rcases Bool.or_eq_true_iff.mp hb with hb | hb
            · exact Or.inl hb
            · have hd : d = (dom + 1) % n := by simpa using hb
              subst hd
              exact Or.inr ⟨0, by omega, by simp, hint⟩
          · rw [mod_step_shift] at heq
            exact Or.inr ⟨i + 1, by omega,
              by rw [show dom + 1 + (i + 1) = dom + 2 + i by omega]; exact heq, hP⟩
        · rintro (hb | ⟨i, hi, heq, hP⟩)
          · exact Or.inl (by simp [hb])
          · cases i with
            | zero =>
              have hd : d = (dom + 1) % n := by simpa using heq.symm
              exact Or.inl (by simp [hd])
            | succ j =>
              refine Or.inr ⟨j, by omega, ?_, hP⟩
              rw [mod_step_shift,
                show dom + 2 + j = dom + 1 + (j + 1) by omega]
              exact heq
      by_cases hp : pmask = 0
      · rw [if_pos hp]
        exact hrec pd
      · rw [if_neg hp]
        exact hrec _
    · simp only [hint, Bool.false_eq_true, if_false]
      rw [ih]
      constructor
      · rintro (hb | ⟨i, hi, heq, hP⟩)
        · exact Or.inl hb
        · rw [mod_step_shift] at heq
          exact Or.inr ⟨i + 1, by omega,
            by rw [show dom + 1 + (i + 1) = dom + 2 + i by omega]; exact heq, hP⟩
      · rintro (hb | ⟨i, hi, heq, hP⟩)
        · exact Or.inl hb
        · cases i with
          | zero =>
            exfalso
            have hd : (dom + 1) % n = d := by simpa using heq
            rw [hd] at hint
            exact hint hP
          | succ j =>
            refine Or.inr ⟨j, by omega, ?_, hP⟩
            rw [mod_step_shift, show dom + 2 + j = dom + 1 + (j + 1) by omega]
            exact heq

theorem exists_rr_hit (n d start : Nat) (hn : 0 < n) (hd : d < n) :
    ∃ i, i < n ∧ (start + 1 + i) % n = d := by
  refine ⟨(d + n - (start + 1) % n) % n, Nat.mod_lt _ hn, ?_⟩
  have hs : (start + 1) % n < n := Nat.mod_lt _ hn
  have h1 : (start + 1 + (d + n - (start + 1) % n) % n) % n
      = ((start + 1) % n + (d + n - (start + 1) % n) % n) % n := by
    conv_lhs => rw [← Nat.mod_add_mod]
  have h2 : ((start + 1) % n + (d + n - (start + 1) % n) % n) % n
      = ((start + 1) % n + (d + n - (start + 1) % n)) % n :=
    Nat.add_mod_mod _ _ _
  have h3 : (start + 1) % n + (d + n - (start + 1) % n) = d + n := by omega
  rw [h1, h2, h3, Nat.add_mod_right]
  exact Nat.mod_eq_of_lt hd

/-- C4: after the domain-selection scan of `task_pick_domain` runs (called at
task admission and on every affinity change through
`task_pick_and_set_domain`), the membership mask `dom_mask` has bit `d` set
exactly when `d` is a valid domain id and domain `d` CPU mask intersects the
task affinity mask. -/
theorem task_pick_domain_mask_coverage (denv : DomEnv) (topo : TopoEnv)
    (mempolicy_affinity has_mempolicy_field mask_ok : Bool)
    (mp : Option MemPolicy) (cpu rr_cur : Nat) (taskc : TaskCtx)
    (cpumask : Cpumask) (hcpu : cpu < MAX_CPUS) (d : Nat) :
    ((task_pick_domain denv topo mempolicy_affinity has_mempolicy_field mask_ok
        mp cpu rr_cur taskc cpumask).1.dom_mask.testBit d = true)
    ↔ (d < topo.nr_doms
       ∧ cpumask_intersects_domain denv cpumask d = true) := by
  have hncpu : ¬ cpu ≥ MAX_CPUS := by omega
  simp only [task_pick_domain, hncpu, if_false]
  rw [task_pick_domain_loop_mask]
  simp only [Nat.zero_testBit, Bool.false_eq_true, false_or]
  constructor
  · rintro ⟨i, hi, heq, hP⟩
    have hn : 0 < topo.nr_doms := by omega
    exact ⟨heq ▸ Nat.mod_lt _ hn, hP⟩
  · rintro ⟨hd, hP⟩
    obtain ⟨i, hi, heq⟩ := exists_rr_hit topo.nr_doms d rr_cur (by omega) hd
    exact ⟨i, hi, heq, hP⟩

/-- Concrete instantiation of C4: two domains over CPU masks {0,1} and {2,3},
a task with affinity {1,2}; both membership bits end up set, and they match
the intersection test for every domain id below `nr_doms`. -/
theorem task_pick_domain_mask_coverage_witness :
    ((task_pick_domain
        (DomEnv.mk
          (fun dd => if dd = 0 then some (LbDomain.mk (some 3) (some 0) (some 3))
                    else if dd = 1 then some (LbDomain.mk (some 12) (some 0) (some 12))
                    else none)
          (fun _ => none) (fun _ => 0))
        (TopoEnv.mk (fun c => if c < 4 then some (c / 2) else none) 4 2 1)
        false false false none 0 0
        (TaskCtx.mk 0 (some 0) 6 false false 100 true false 0 0 0 0 0 0 0 0 0)
        6).1.dom_mask.testBit 1 = true)
    ∧ ((1 : Nat) < 2
       ∧ cpumask_intersects_domain
          (DomEnv.mk
            (fun dd => if dd = 0 then some (LbDomain.mk (some 3) (some 0) (some 3))
                      else if dd = 1 then some (LbDomain.mk (some 12) (some 0) (some 12))
                      else none)
            (fun _ => none) (fun _ => 0)) 6 1 = true) :=
  ⟨(task_pick_domain_mask_coverage
      (DomEnv.mk
        (fun dd => if dd = 0 then some (LbDomain.mk (some 3) (some 0) (some 3))
                  else if dd = 1 then some (LbDomain.mk (some 12) (some 0) (some 12))
                  else none)
        (fun _ => none) (fun _ => 0))
      (TopoEnv.mk (fun c => if c < 4 then some (c / 2) else none) 4 2 1)
      false false false none 0 0
      (TaskCtx.mk 0 (some 0) 6 false false 100 true false 0 0 0 0 0 0 0 0 0)
      6 (by decide) 1).mpr ⟨by decide, by decide⟩,
   by decide, by decide⟩

/-- C6: for a task pinned to exactly one CPU (`nr_cpus_allowed = 1`),
`rusty_select_cpu` returns the previous CPU immediately, marks the task for
local-queue dispatch, and emits exactly one statistics bump — the pinned
counter, or the direct-dispatch counter when `kthreads_local` is set and the
task is a kernel thread.  The equation holds for every environment, in
particular for arbitrary idle-mask snapshots and idle-search oracles: no
idle search takes place. -/
theorem rusty_select_cpu_pinned (env : SelEnv) (p : TaskP) (taskc : TaskCtx)
    (prev_cpu : Nat) (wake_sync : Bool) (hpin : p.nr_cpus_allowed = 1) :
    rusty_select_cpu env p taskc prev_cpu wake_sync =
      ((prev_cpu : Int), { taskc with dispatch_local := true },
       refresh_tune_params env.topo env.denv env.tune_input env.tune,
       [Ev.stat (if env.kthreads_local ∧ p.flags_kthread then
           RustyStat.direct_dispatch else RustyStat.pinned) 1]) := by
  by_cases hkw : env.kthreads_local ∧ p.flags_kthread <;>
    simp [rusty_select_cpu, hpin, hkw]

/-- Concrete instantiation of C6: a task pinned to CPU 2 on a trivial
environment is sent back to CPU 2, flagged for local dispatch, and counted
as pinned. -/
theorem rusty_select_cpu_pinned_witness :
    (TaskP.mk 7 4 1 false false false 42).nr_cpus_allowed = 1
    ∧ rusty_select_cpu
        (SelEnv.mk (DomEnv.mk (fun _ => none) (fun _ => none) (fun _ => 0))
          (TopoEnv.mk (fun c => if c < 4 then some 0 else none) 4 1 1)
          (TuneState.mk 0 1000 none none (fun _ => none))
          (TuneInput.mk 0 1000 0 0)
          false false 0 0 (fun _ => false) (fun _ => none) (fun _ => none)
          (fun _ => 0) false 0 (fun _ => none) false)
        (TaskP.mk 7 4 1 false false false 42)
        (TaskCtx.mk 0 (some 0) 4 false false 100 true false 1 0 0 0 0 0 0 0 0)
        2 false
      = ((2 : Int),
         TaskCtx.mk 0 (some 0) 4 true false 100 true false 1 0 0 0 0 0 0 0 0,
         TuneState.mk 0 1000 none none (fun _ => none),
         [Ev.stat RustyStat.pinned 1]) := by
  constructor
  · rfl
  · rw [rusty_select_cpu_pinned
      (SelEnv.mk (DomEnv.mk (fun _ => none) (fun _ => none) (fun _ => 0))
        (TopoEnv.mk (fun c => if c < 4 then some 0 else none) 4 1 1)
        (TuneState.mk 0 1000 none none (fun _ => none))
        (TuneInput.mk 0 1000 0 0)
        false false 0 0 (fun _ => false) (fun _ => none) (fun _ => none)
        (fun _ => 0) false 0 (fun _ => none) false)
      (TaskP.mk 7 4 1 false false false 42)
      (TaskCtx.mk 0 (some 0) 4 false false 100 true false 1 0 0 0 0 0 0 0 0)
      2 false rfl]
    simp [refresh_tune_params]

end SCXWd40
